import Mathlib

/-! DungeonGenerator: grid-cell adjacency predicates

A shallow embedding of `Source/DungeonGenerator/Private/Core/Grid.cpp`; from
`Source/DungeonGenerator/Private/DungeonGeneratorCore.cpp`, of the drawing loop of
`CDungeonGeneratorCore::GenerateMiniMapTexture`, of `CDungeonGeneratorCore::Create`, of
`CDungeonGeneratorCore::CreateImpl_AddRoomAsset` and of the wall, door and pillar blocks
of `CDungeonGeneratorCore::AddTerrain`; of `Generator::FindAisle` (`Core/Generator.h`), of
the BMP structures of `Core/Debug/Debug.h` and of the mesh callbacks of
`ADungeonGenerateActor::PreInitializeComponents`; followed by their properties.

Each C++ member function `Grid::F(toGrid, ...)` becomes `Grid.F s toGrid ...`
where `s` is the object the method is called on.
-/

namespace dungeon

/-- Modelled from the spec: the declaration of `Direction` lives in `Direction.h`,
which is not among the sources. The four horizontal directions, in the order the
spec lists them (N, E, S, W). -/
inductive Direction where
  | North
  | East
  | South
  | West
  deriving DecidableEq, Repr

namespace Direction

/-- Modelled from the spec: `Direction::IsNorthSouth` (declared in `Direction.h`),
true for the two directions on the north-south axis. -/
def IsNorthSouth : Direction → Bool
  | North => true
  | South => true
  | East => false
  | West => false

end Direction

/-- The cell kinds of `Grid::Type`, in the order of the tables of `GetTypeColor`
and `GetTypeName` (Grid.cpp:373-400). -/
inductive GridType where
  | Floor
  | Deck
  | Gate
  | Aisle
  | Slope
  | Atrium
  | Empty
  | OutOfBounds
  deriving DecidableEq, Repr

/-- The values of `Grid::Props`, in the order of the table of `GetPropsName`
(Grid.cpp:409-413). -/
inductive GridProps where
  | None
  | Lock
  | UniqueLock
  deriving DecidableEq, Repr

/-- Modelled from the spec: the member layout of `Grid` is declared in `Grid.h`,
which is not among the sources. The fields are the attributes the spec gives a
grid cell; `mIdentifier` is a 16-bit unsigned number, held as a natural number
(the predicates only compare identifiers for equality). -/
structure Grid where
  mType : GridType
  mIdentifier : Nat
  mDirection : Direction
  mProps : GridProps
  mNoFloorMeshGeneration : Bool
  mNoRoofMeshGeneration : Bool
  mMainRoute : Bool
  mCatwalk : Bool
  deriving DecidableEq, Repr

namespace Grid

def GetType (s : Grid) : GridType := s.mType

def GetIdentifier (s : Grid) : Nat := s.mIdentifier

def GetDirection (s : Grid) : Direction := s.mDirection

def IsNoFloorMeshGeneration (s : Grid) : Bool := s.mNoFloorMeshGeneration

def IsNoRoofMeshGeneration (s : Grid) : Bool := s.mNoRoofMeshGeneration

/-- Grid.cpp:14-20. -/
def IsKindOfRoomType (s : Grid) : Bool :=
  s.mType == GridType.Floor ||
  s.mType == GridType.Deck ||
  s.mType == GridType.Gate

/-- Grid.cpp:22-27. -/
def IsKindOfRoomTypeWithoutGate (s : Grid) : Bool :=
  s.mType == GridType.Floor ||
  s.mType == GridType.Deck

/-- Grid.cpp:29-33. -/
def IsKindOfGateType (s : Grid) : Bool :=
  s.mType == GridType.Gate

/-- Grid.cpp:35-39. -/
def IsKindOfAisleType (s : Grid) : Bool :=
  s.mType == GridType.Aisle

/-- Grid.cpp:41-46. -/
def IsKindOfSlopeType (s : Grid) : Bool :=
  s.mType == GridType.Slope ||
  s.mType == GridType.Atrium

/-- Grid.cpp:48-53. -/
def IsKindOfSpatialType (s : Grid) : Bool :=
  s.mType == GridType.Empty ||
  s.mType == GridType.OutOfBounds

/-- Grid.cpp:90-114: is a floor generated when looking from `s` to `toGrid`. -/
def CanBuildFloor (s toGrid : Grid) (checkNoMeshGeneration : Bool) : Bool :=
  if checkNoMeshGeneration && s.IsNoFloorMeshGeneration then
    false
  else if s.IsKindOfRoomType then
    toGrid.GetIdentifier != s.GetIdentifier ||
    toGrid.IsKindOfAisleType ||
    toGrid.IsKindOfSlopeType ||
    toGrid.IsKindOfSpatialType
  else if s.IsKindOfAisleType then
    toGrid.GetIdentifier != s.GetIdentifier ||
    toGrid.IsKindOfRoomType ||
    toGrid.IsKindOfAisleType ||
    toGrid.IsKindOfSlopeType ||
    toGrid.IsKindOfSpatialType
  else
    false

/-- Grid.cpp:119-122. -/
def CanBuildSlope (s : Grid) : Bool :=
  s.mType == GridType.Slope

/-- Grid.cpp:127-158: is a roof generated when looking from `s` to `toGrid`. -/
def CanBuildRoof (s toGrid : Grid) (checkNoMeshGeneration : Bool) : Bool :=
  if checkNoMeshGeneration && s.IsNoRoofMeshGeneration then
    false
  else if s.IsKindOfRoomType then
    (toGrid.mType == GridType.Deck || toGrid.mType == GridType.Gate) ||
    toGrid.IsKindOfAisleType ||
    toGrid.IsKindOfSlopeType ||
    toGrid.IsKindOfSpatialType
  else if s.IsKindOfAisleType then
    toGrid.IsKindOfRoomType ||
    toGrid.IsKindOfAisleType ||
    toGrid.IsKindOfSlopeType ||
    toGrid.IsKindOfSpatialType
  else if s.IsKindOfSlopeType then
    toGrid.IsKindOfRoomType ||
    toGrid.IsKindOfAisleType ||
    toGrid.mType == GridType.Slope ||
    toGrid.IsKindOfSpatialType
  else
    false

/-- Grid.cpp:163-238: is a wall generated when looking from `s` to `toGrid`. -/
def CanBuildWall (s toGrid : Grid) (direction : Direction) (mergeRooms : Bool) : Bool :=
  if !mergeRooms && (s.IsKindOfRoomTypeWithoutGate && toGrid.IsKindOfRoomTypeWithoutGate) then
    s.mIdentifier != toGrid.mIdentifier
  else if s.IsKindOfGateType then
    if toGrid.IsKindOfRoomType || toGrid.IsKindOfSlopeType then
      s.GetIdentifier != toGrid.GetIdentifier &&
      s.GetDirection.IsNorthSouth != direction.IsNorthSouth
    else
      toGrid.IsKindOfSpatialType
  else if s.IsKindOfRoomTypeWithoutGate then
    toGrid.IsKindOfAisleType ||
    toGrid.IsKindOfSlopeType ||
    toGrid.IsKindOfSpatialType
  else if s.IsKindOfAisleType then
    if toGrid.IsKindOfAisleType || toGrid.IsKindOfSlopeType then
      toGrid.GetIdentifier != s.GetIdentifier
    else
      toGrid.IsKindOfRoomTypeWithoutGate ||
      toGrid.IsKindOfSpatialType
  else if s.mType == GridType.Slope then
    if toGrid.IsKindOfSlopeType then
      (toGrid.GetDirection.IsNorthSouth != direction.IsNorthSouth) ||
      (toGrid.mIdentifier != s.mIdentifier)
    else
      toGrid.IsKindOfSpatialType
  else if s.mType == GridType.Atrium then
    if toGrid.IsKindOfSlopeType then
      toGrid.GetDirection.IsNorthSouth != direction.IsNorthSouth ||
      (toGrid.mIdentifier != s.mIdentifier)
    else
      toGrid.IsKindOfSpatialType
  else
    false

/-- Grid.cpp:243-318: the wall predicate written for the minimap; the slope test of
the room-without-gate branch is commented out in the source (line 276). -/
def CanBuildWallForMinimap (s toGrid : Grid) (direction : Direction) (mergeRooms : Bool) : Bool :=
  if !mergeRooms && (s.IsKindOfRoomTypeWithoutGate && toGrid.IsKindOfRoomTypeWithoutGate) then
    s.mIdentifier != toGrid.mIdentifier
  else if s.IsKindOfGateType then
    if toGrid.IsKindOfRoomType || toGrid.IsKindOfSlopeType then
      s.GetIdentifier != toGrid.GetIdentifier &&
      s.GetDirection.IsNorthSouth != direction.IsNorthSouth
    else
      toGrid.IsKindOfSpatialType
  else if s.IsKindOfRoomTypeWithoutGate then
    toGrid.IsKindOfAisleType ||
    toGrid.IsKindOfSpatialType
  else if s.IsKindOfAisleType then
    if toGrid.IsKindOfAisleType || toGrid.IsKindOfSlopeType then
      toGrid.GetIdentifier != s.GetIdentifier
    else
      toGrid.IsKindOfRoomTypeWithoutGate ||
      toGrid.IsKindOfSpatialType
  else if s.mType == GridType.Slope then
    if toGrid.IsKindOfSlopeType then
      (toGrid.GetDirection.IsNorthSouth != direction.IsNorthSouth) ||
      (toGrid.mIdentifier != s.mIdentifier)
    else
      toGrid.IsKindOfSpatialType
  else if s.mType == GridType.Atrium then
    if toGrid.IsKindOfSlopeType then
      toGrid.GetDirection.IsNorthSouth != direction.IsNorthSouth ||
      (toGrid.mIdentifier != s.mIdentifier)
    else
      toGrid.IsKindOfSpatialType
  else
    false

/-- Modelled from the spec: the cell that `Voxel::Get` returns for a read outside
the voxel bounds (`Voxel.h` is not among the sources): a synthetic OutOfBounds cell,
with identifier 0 (none). -/
def outOfBounds : Grid :=
  ⟨GridType.OutOfBounds, 0, Direction.North, GridProps.None, false, false, false, false⟩

end Grid

/-- Reduction of a natural number to the range of `uint32_t`. -/
def u32 (n : Nat) : Nat := n % 4294967296

/-- The `uint32_t` value of `n - 1`, which wraps to `4294967295` at `n = 0`. -/
def u32pred (n : Nat) : Nat := u32 (n + 4294967295)

/-- The `uint32_t` value of `n + 1`. -/
def u32succ (n : Nat) : Nat := u32 (n + 1)

/-- Modelled from the spec: `Voxel` is declared in `Voxel.h`, which is not among the
sources. A bounded 3D array of `Grid` of dimensions (width, depth, height); the
stored cell at in-bounds coordinates `(x, y, z)` is `mGrids x y z`. -/
structure Voxel where
  mWidth : Nat
  mDepth : Nat
  mHeight : Nat
  mGrids : Nat → Nat → Nat → Grid

namespace Voxel

def GetWidth (v : Voxel) : Nat := v.mWidth

def GetDepth (v : Voxel) : Nat := v.mDepth

def GetHeight (v : Voxel) : Nat := v.mHeight

/-- Modelled from the spec: `Voxel::Get` (`Voxel.h` is not among the sources): reads
outside the voxel bounds return a synthetic OutOfBounds cell. -/
def Get (v : Voxel) (x y z : Nat) : Grid :=
  if x < v.mWidth ∧ y < v.mDepth ∧ z < v.mHeight then v.mGrids x y z else Grid.outOfBounds

end Voxel

/-- The part of `UDungeonGenerateParameter` that the minimap rasteriser reads. -/
structure UDungeonGenerateParameter where
  MergeRooms : Bool
  deriving DecidableEq, Repr

/-- A call of one of the two drawing helpers of `GenerateMiniMapTexture`
(DungeonGeneratorCore.cpp:888-930): `rect(x, y, color)` or `line(x, y, dir, color)`. -/
inductive DrawCall where
  | rect (x y : Nat) (color : Nat)
  | line (x y : Nat) (dir : Direction) (color : Nat)
  deriving DecidableEq, Repr

/-- DungeonGeneratorCore.cpp:956-986: the body of the innermost loop of
`GenerateMiniMapTexture` for the cell `(x, y, z)`, as the drawing calls it makes, in
order. -/
def GenerateMiniMapTexture_cell (voxel : Voxel) (mergeRooms : Bool)
    (floorColor wallColor : Nat) (x y z : Nat) : List DrawCall :=
  let grid := voxel.Get x y z
  (if grid.CanBuildSlope || grid.GetType == GridType.Atrium then
    [DrawCall.rect x y floorColor]
  else if grid.CanBuildFloor (voxel.Get x y (u32pred z)) false then
    [DrawCall.rect x y floorColor]
  else
    []) ++
  (if grid.CanBuildWall (voxel.Get x (u32pred y) z) Direction.North mergeRooms then
    [DrawCall.line x y Direction.North wallColor]
  else
    []) ++
  (if grid.CanBuildWall (voxel.Get x (u32succ y) z) Direction.South mergeRooms then
    [DrawCall.line x y Direction.South wallColor]
  else
    []) ++
  (if grid.CanBuildWall (voxel.Get (u32succ x) y z) Direction.East mergeRooms then
    [DrawCall.line x y Direction.East wallColor]
  else
    []) ++
  (if grid.CanBuildWall (voxel.Get (u32pred x) y z) Direction.West mergeRooms then
    [DrawCall.line x y Direction.West wallColor]
  else
    [])

/-- DungeonGeneratorCore.cpp:873-988, `CDungeonGeneratorCore::GenerateMiniMapTexture`:
the drawing calls made while rasterising the levels `0 .. currentLevel`, in order;
`none` when the parameter is invalid (the function returns `nullptr` before drawing).

The grey levels `floorColor` and `wallColor` of level `z` are computed in the source
with floating point (lines 935-949); here they are given as functions of `z`.
The loop `for (z = 0; z <= currentLevel; ++z)` is modelled for a clamped level below
`4294967295`, which is the case whenever the voxel has height at least 1. -/
def GenerateMiniMapTexture (parameter : Option UDungeonGenerateParameter) (voxel : Voxel)
    (floorColor wallColor : Nat → Nat) (currentLevel : Nat) : Option (List DrawCall) :=
  match parameter with
  | none => none
  | some p =>
    let currentLevel :=
      if currentLevel > u32pred voxel.GetHeight then u32pred voxel.GetHeight else currentLevel
    some ((List.range (currentLevel + 1)).flatMap fun z =>
      (List.range voxel.GetDepth).flatMap fun y =>
        (List.range voxel.GetWidth).flatMap fun x =>
          GenerateMiniMapTexture_cell voxel p.MergeRooms (floorColor z) (wallColor z) x y z)

/-- A voxel of width 2, depth 1 and height 1: a Floor cell of room 1 at `(0, 0, 0)`
with a Slope cell of aisle 2, facing east, as its eastern neighbour at `(1, 0, 0)`. -/
def floorBesideSlope : Voxel :=
  ⟨2, 1, 1, fun x _ _ =>
    if x = 0 then
      ⟨GridType.Floor, 1, Direction.North, GridProps.None, false, false, false, false⟩
    else
      ⟨GridType.Slope, 2, Direction.East, GridProps.None, false, false, false, false⟩⟩

/-! ## Further cell predicates of Grid.cpp -/

namespace Direction

/-- Modelled from the spec: `Direction::Inverse` (declared in `Direction.h`, which is
not among the sources), the opposite direction: north and south are exchanged, east and
west are exchanged. -/
def Inverse : Direction → Direction
  | North => South
  | South => North
  | East => West
  | West => East

end Direction

/-- The colours of Unreal Engine's `FColor` (an engine type, 8 bits per channel). -/
structure FColor where
  R : Nat
  G : Nat
  B : Nat
  A : Nat
  deriving DecidableEq, Repr

namespace FColor

/-- The engine constant `FColor::Blue`. -/
def Blue : FColor := ⟨0, 0, 255, 255⟩

/-- The engine constant `FColor::Yellow`. -/
def Yellow : FColor := ⟨255, 255, 0, 255⟩

/-- The engine constant `FColor::Red`. -/
def Red : FColor := ⟨255, 0, 0, 255⟩

/-- The engine constant `FColor::Green`. -/
def Green : FColor := ⟨0, 255, 0, 255⟩

/-- The engine constant `FColor::Magenta`. -/
def Magenta : FColor := ⟨255, 0, 255, 255⟩

/-- The engine constant `FColor::Cyan`. -/
def Cyan : FColor := ⟨0, 255, 255, 255⟩

/-- The engine constant `FColor::Black`. -/
def Black : FColor := ⟨0, 0, 0, 255⟩

end FColor

namespace GridType

/-- The value of `static_cast<size_t>(mType)`: the position of the type in
`enum Grid::Type`. The enum is declared in `Grid.h`, which is not among the sources; the
order is the one written beside the entries of the tables of `GetTypeColor` and
`GetTypeName` (Grid.cpp:373-400). -/
def index : GridType → Nat
  | Floor => 0
  | Deck => 1
  | Gate => 2
  | Aisle => 3
  | Slope => 4
  | Atrium => 5
  | Empty => 6
  | OutOfBounds => 7

end GridType

namespace Grid

/-- Grid.cpp:55-64. -/
def IsHorizontallyPassable (s : Grid) : Bool :=
  s.mType == GridType.Floor ||
  s.mType == GridType.Deck ||
  s.mType == GridType.Gate ||
  s.mType == GridType.Aisle ||
  s.mType == GridType.Slope ||
  s.mType == GridType.Atrium

/-- Grid.cpp:66-69. -/
def IsHorizontallyNotPassable (s : Grid) : Bool :=
  s.IsHorizontallyPassable == false

/-- Grid.cpp:71-80; the Aisle test is commented out in the source (line 77). -/
def IsVerticallyPassable (s : Grid) : Bool :=
  s.mType == GridType.Floor ||
  s.mType == GridType.Deck ||
  s.mType == GridType.Gate ||
  s.mType == GridType.Slope ||
  s.mType == GridType.Atrium

/-- Grid.cpp:82-85. -/
def IsVerticallyNotPassable (s : Grid) : Bool :=
  s.IsVerticallyPassable == false

/-- Grid.cpp:323-336: is a pillar generated when looking from `s` to `toGrid`. -/
def CanBuildPillar (_s toGrid : Grid) : Bool :=
  toGrid.IsHorizontallyPassable &&
  (toGrid.GetType != GridType.Empty &&
    toGrid.GetType != GridType.Atrium &&
    toGrid.GetType != GridType.Slope)

/-- Grid.cpp:341-369: is a door generated when looking from `s` to `toGrid`. -/
def CanBuildGate (s toGrid : Grid) (direction : Direction) : Bool :=
  if s.mType == GridType.Gate then
    if toGrid.mType == GridType.Gate then
      s.mDirection == toGrid.mDirection &&
      s.mDirection.Inverse == direction
    else if toGrid.IsKindOfSlopeType then
      s.mDirection.IsNorthSouth == toGrid.GetDirection.IsNorthSouth &&
      s.mDirection.IsNorthSouth == direction.IsNorthSouth
    else
      toGrid.IsKindOfAisleType
  else
    false

/-- Grid.cpp:373-382: the table `colors` of `GetTypeColor`. -/
def colors : List FColor :=
  [FColor.Blue,     -- Floor
   FColor.Yellow,   -- Deck
   FColor.Red,      -- Gate
   FColor.Green,    -- Aisle
   FColor.Magenta,  -- Slope
   FColor.Cyan,     -- Atrium
   FColor.Black,    -- Empty
   FColor.Black]    -- OutOfBounds

/-- Grid.cpp:371-387: `colors[static_cast<size_t>(mType)]`. The index is always below
the size of the table (the source asserts `ColorSize == TypeSize`), so the default of
the lookup is never used. -/
def GetTypeColor (s : Grid) : FColor :=
  colors.getD s.mType.index FColor.Black

end Grid

/-! ## `CDungeonGeneratorCore::Create` -/

/-- Generator.h:36-47, `dungeon::Generator::Error`. -/
inductive Generator.Error where
  | Success
  | SeparateRoomsFailed
  | TriangulationFailed
  | GateSearchFailed
  | RouteSearchFailed
  | ___StartVoxelError
  | GoalPointIsOutsideGoalRange
  deriving DecidableEq, Repr

/-- The value of `static_cast<int32>(n)`: `n` reduced modulo `2^32` into the range
`-2147483648 .. 2147483647`. -/
def toInt32 (n : Int) : Int :=
  let r := n % 4294967296
  if r < 2147483648 then r else r - 4294967296

/-- The calls that `CDungeonGeneratorCore::Create` makes (DungeonGeneratorCore.cpp:76-144),
as far as the properties below need them; the copies of the size and margin fields into
`generateParameter` (lines 91-101) are left out. -/
inductive CreateEvent where
  /-- Line 82: `Clear()`. -/
  | Clear
  /-- Lines 86, 87: `parameter->GetRandomSeed()`. -/
  | GetRandomSeed
  /-- Line 88: `time(nullptr)`. -/
  | time
  /-- Line 89: `generateParameter.mRandom.SetSeed(seed)`. -/
  | SetSeed (seed : Int)
  /-- Line 90: `parameter->SetGeneratedRandomSeed(seed)`. -/
  | SetGeneratedRandomSeed (seed : Int)
  /-- Line 103: `std::make_shared<dungeon::Generator>()`. -/
  | MakeGenerator
  /-- Line 104: `mGenerator->OnQueryParts(...)`. -/
  | OnQueryParts
  /-- Line 108: `mGenerator->Generate(generateParameter)`. -/
  | Generate
  /-- Line 115: `mGenerator->DumpRoomDiagram(...)`. -/
  | DumpRoomDiagram
  /-- Line 120: `mGenerator->GetLastError()`. -/
  | GetLastError
  /-- Line 132: `parameter->DumpToJson()`, compiled under `WITH_EDITOR`. -/
  | DumpToJson
  /-- Line 138: `AddTerrain()`. -/
  | AddTerrain
  /-- Line 139: `AddObject()`. -/
  | AddObject
  deriving DecidableEq, Repr

/-- What a call of `Create` does: the calls it makes, in order, and the value it returns;
`result = none` when the call does not return (it dereferences a null parameter). -/
structure CreateOutcome where
  events : List CreateEvent
  result : Option Bool
  deriving DecidableEq, Repr

/-- DungeonGeneratorCore.cpp:76-144, `CDungeonGeneratorCore::Create`.

* `parameter` is `none` for a null pointer and `some p` for a valid object (the third
  case, an object that is not null but for which `IsValid` is false, is
  `Create_invalidObject` below);
* `randomSeed` is the value that `parameter->GetRandomSeed()` returns, an `int32` (the
  accessor is declared in `DungeonGenerateParameter.h`, which is not among the sources);
* `clock` is the value that `time(nullptr)` returns;
* `lastError` is the value that `mGenerator->GetLastError()` returns after `Generate`
  (`Generator.cpp` is not among the sources);
* `withEditor` tells whether the code is compiled with `WITH_EDITOR`.

For a null parameter the source calls `Clear()` and, having no `return` there, goes on
to `parameter->GetRandomSeed()` (line 86), through the null pointer.
`DEBUG_GENERATE_MISSION_GRAPH_FILE` is defined at line 39, so the room diagram is always
dumped. -/
def Create (parameter : Option UDungeonGenerateParameter) (randomSeed : Int) (clock : Int)
    (lastError : Generator.Error) (withEditor : Bool) : CreateOutcome :=
  match parameter with
  | none => ⟨[CreateEvent.Clear, CreateEvent.GetRandomSeed], none⟩
  | some _ =>
    let seed : Int := if randomSeed = 0 then toInt32 clock else randomSeed
    let head : List CreateEvent :=
      [CreateEvent.GetRandomSeed, CreateEvent.GetRandomSeed] ++
      (if randomSeed = 0 then [CreateEvent.time] else []) ++
      [CreateEvent.SetSeed seed, CreateEvent.SetGeneratedRandomSeed seed,
        CreateEvent.MakeGenerator, CreateEvent.OnQueryParts, CreateEvent.Generate,
        CreateEvent.DumpRoomDiagram, CreateEvent.GetLastError]
    if Generator.Error.Success ≠ lastError then
      ⟨head ++ (if withEditor then [CreateEvent.DumpToJson] else []), some false⟩
    else
      ⟨head ++ [CreateEvent.AddTerrain, CreateEvent.AddObject], some true⟩

/-- DungeonGeneratorCore.cpp:76-144, `CDungeonGeneratorCore::Create` for a parameter that
is not null but for which `IsValid(parameter)` is false: the source calls `Clear()`
(line 82) and, having no `return` there, runs the rest of the function on the object as
it does for a valid one. -/
def Create_invalidObject (parameter : UDungeonGenerateParameter) (randomSeed : Int)
    (clock : Int) (lastError : Generator.Error) (withEditor : Bool) : CreateOutcome :=
  ⟨CreateEvent.Clear :: (Create (some parameter) randomSeed clock lastError withEditor).events,
    (Create (some parameter) randomSeed clock lastError withEditor).result⟩

/-! ## `CDungeonGeneratorCore::CreateImpl_AddRoomAsset` -/

/-- Modelled from the spec: `dungeon::Room::Parts` (declared in `Room.h`, which is not
among the sources), the values the spec gives for a room's `parts`. The engine-side enum
`EDungeonRoomParts` has the same values in the same order (DungeonGeneratorCore.cpp:152
casts one to the other), so one type stands for both. -/
inductive Room.Parts where
  | Start
  | End
  | Hanare
  | Hall
  | Any
  deriving DecidableEq, Repr

/-- The values of `EDungeonRoomSizeCondition` that DungeonGeneratorCore.cpp:157-194 tests,
`Equal` and `EqualGreater`; `Other` stands for any further value of the enum (it is
declared in a header that is not among the sources), for which the `switch` statements
have no case. -/
inductive EDungeonRoomSizeCondition where
  | Equal
  | EqualGreater
  | Other
  deriving DecidableEq, Repr

/-- The members of `FDungeonRoomLocator` that `CreateImpl_AddRoomAsset` reads through
its accessors (the type is declared in a header that is not among the sources); a level
path is held as a string. -/
structure FDungeonRoomLocator where
  DungeonParts : Room.Parts
  WidthCondition : EDungeonRoomSizeCondition
  DepthCondition : EDungeonRoomSizeCondition
  HeightCondition : EDungeonRoomSizeCondition
  Width : Nat
  Depth : Nat
  Height : Nat
  LevelPath : String
  GenerateRoofMesh : Bool
  GenerateFloorMesh : Bool
  deriving DecidableEq, Repr

/-- Modelled from the spec: `dungeon::Room` (declared in `Room.h`, which is not among the
sources), with the attributes that `CreateImpl_AddRoomAsset` reads or writes: the
dimensions `w, d, h`, the `parts` and the two optional mesh-suppression flags. -/
structure Room where
  mWidth : Nat
  mDepth : Nat
  mHeight : Nat
  mParts : Room.Parts
  mNoRoofMeshGeneration : Bool
  mNoFloorMeshGeneration : Bool
  deriving DecidableEq, Repr

namespace Room

def GetWidth (r : Room) : Nat := r.mWidth

def GetDepth (r : Room) : Nat := r.mDepth

def GetHeight (r : Room) : Nat := r.mHeight

def GetParts (r : Room) : Room.Parts := r.mParts

/-- Modelled from the spec: `Room::SetDataSize` (`Room.h` is not among the sources), the
call by which the locator callback overwrites the room's dimensions. -/
def SetDataSize (r : Room) (width depth height : Nat) : Room :=
  ⟨width, depth, height, r.mParts, r.mNoRoofMeshGeneration, r.mNoFloorMeshGeneration⟩

/-- Modelled from the spec: `Room::SetNoMeshGeneration(noRoofMesh, noFloorMesh)`
(`Room.h` is not among the sources), which sets the two mesh-suppression flags. -/
def SetNoMeshGeneration (r : Room) (noRoofMeshGeneration noFloorMeshGeneration : Bool) :
    Room :=
  ⟨r.mWidth, r.mDepth, r.mHeight, r.mParts, noRoofMeshGeneration, noFloorMeshGeneration⟩

end Room

/-- An entry of the level-request queue `mRequestLoadStreamLevels`; its world location,
computed in floating point (DungeonGeneratorCore.cpp:204-207), is left out. -/
structure LoadStreamLevelParameter where
  mPath : String
  deriving DecidableEq, Repr

/-- DungeonGeneratorCore.cpp:1017-1025, `CDungeonGeneratorCore::IsStreamLevelRequested`. -/
def IsStreamLevelRequested (mRequestLoadStreamLevels : List LoadStreamLevelParameter)
    (levelPath : String) : Bool :=
  mRequestLoadStreamLevels.any fun requestStreamLevel => requestStreamLevel.mPath == levelPath

/-- DungeonGeneratorCore.cpp:1027-1030, `CDungeonGeneratorCore::RequestStreamLevel`. -/
def RequestStreamLevel (mRequestLoadStreamLevels : List LoadStreamLevelParameter)
    (levelPath : String) : List LoadStreamLevelParameter :=
  mRequestLoadStreamLevels ++ [⟨levelPath⟩]

/-- The calls on the room that `CreateImpl_AddRoomAsset` makes. -/
inductive RoomCall where
  | SetDataSize (width depth height : Nat)
  | SetNoMeshGeneration (noRoofMeshGeneration noFloorMeshGeneration : Bool)
  deriving DecidableEq, Repr

/-- The state that `CreateImpl_AddRoomAsset` works on: the room, the level-request queue
of the core object, and the calls made on the room so far, in order. -/
structure AddRoomAssetState where
  room : Room
  mRequestLoadStreamLevels : List LoadStreamLevelParameter
  calls : List RoomCall
  deriving DecidableEq, Repr

/-- The tests of one `switch` of DungeonGeneratorCore.cpp:157-194: true when the lambda
returns because the room's size does not meet the locator's condition. -/
def sizeConditionFails (condition : EDungeonRoomSizeCondition) (roomSize locatorSize : Nat) :
    Bool :=
  match condition with
  | EDungeonRoomSizeCondition.Equal => roomSize != locatorSize
  | EDungeonRoomSizeCondition.EqualGreater => roomSize < locatorSize
  | EDungeonRoomSizeCondition.Other => false

/-- DungeonGeneratorCore.cpp:148-209: the lambda that `CreateImpl_AddRoomAsset` passes to
`EachDungeonRoomLocator`, for one locator. -/
def CreateImpl_AddRoomAsset_locator (st : AddRoomAssetState)
    (dungeonRoomLocator : FDungeonRoomLocator) : AddRoomAssetState :=
  if dungeonRoomLocator.DungeonParts != Room.Parts.Any &&
      dungeonRoomLocator.DungeonParts != st.room.GetParts then
    st
  else if sizeConditionFails dungeonRoomLocator.WidthCondition st.room.GetWidth
      dungeonRoomLocator.Width then
    st
  else if sizeConditionFails dungeonRoomLocator.DepthCondition st.room.GetDepth
      dungeonRoomLocator.Depth then
    st
  else if sizeConditionFails dungeonRoomLocator.HeightCondition st.room.GetHeight
      dungeonRoomLocator.Height then
    st
  else if !IsStreamLevelRequested st.mRequestLoadStreamLevels
      dungeonRoomLocator.LevelPath then
    ⟨(st.room.SetDataSize dungeonRoomLocator.Width dungeonRoomLocator.Depth
        dungeonRoomLocator.Height).SetNoMeshGeneration
        (!dungeonRoomLocator.GenerateRoofMesh) (!dungeonRoomLocator.GenerateFloorMesh),
      RequestStreamLevel st.mRequestLoadStreamLevels dungeonRoomLocator.LevelPath,
      st.calls ++
        [RoomCall.SetDataSize dungeonRoomLocator.Width dungeonRoomLocator.Depth
            dungeonRoomLocator.Height,
          RoomCall.SetNoMeshGeneration (!dungeonRoomLocator.GenerateRoofMesh)
            (!dungeonRoomLocator.GenerateFloorMesh)]⟩
  else
    st

/-- DungeonGeneratorCore.cpp:146-212, `CDungeonGeneratorCore::CreateImpl_AddRoomAsset`,
for the room `room` and the level-request queue `mRequestLoadStreamLevels` found at the
call. `locators` are the room locators of the parameter:
`parameter->EachDungeonRoomLocator(f)` (declared in `DungeonGenerateParameter.h`, which is
not among the sources) calls `f` on each of them in order, and `f`, returning nothing,
cannot stop the enumeration. -/
def CreateImpl_AddRoomAsset (locators : List FDungeonRoomLocator) (room : Room)
    (mRequestLoadStreamLevels : List LoadStreamLevelParameter) : AddRoomAssetState :=
  locators.foldl CreateImpl_AddRoomAsset_locator ⟨room, mRequestLoadStreamLevels, []⟩

/-- The number of `Room::SetDataSize` calls among the calls made on a room. -/
def countSetDataSize (calls : List RoomCall) : Nat :=
  calls.countP fun c =>
    match c with
    | RoomCall.SetDataSize _ _ _ => true
    | RoomCall.SetNoMeshGeneration _ _ => false

/-- Two room locators with the same conditions and sizes and the level paths `A` and
`B`, both of which a 3 x 3 x 3 room meets. -/
def twoLocators : List FDungeonRoomLocator :=
  [⟨Room.Parts.Any, EDungeonRoomSizeCondition.Equal, EDungeonRoomSizeCondition.Equal,
      EDungeonRoomSizeCondition.Equal, 3, 3, 3, "A", true, true⟩,
    ⟨Room.Parts.Any, EDungeonRoomSizeCondition.Equal, EDungeonRoomSizeCondition.Equal,
      EDungeonRoomSizeCondition.Equal, 3, 3, 3, "B", true, true⟩]

/-! ## `CDungeonGeneratorCore::AddTerrain` -/

namespace Direction

/-- Modelled from the spec: the unit vector of a direction (`Direction.h` is not among
the sources): north is `-Y`, south is `+Y`, east is `+X`, west is `-X`. -/
def GetVector : Direction → Int × Int × Int
  | North => (0, -1, 0)
  | South => (0, 1, 0)
  | East => (1, 0, 0)
  | West => (-1, 0, 0)

end Direction

/-- The value of `static_cast<uint32_t>(i)` for an `int`: `i` reduced modulo `2^32`. -/
def toU32 (i : Int) : Nat := (i % 4294967296).toNat

/-- The call `mGenerator->GetVoxel()->Get(a, b, c)` as `AddTerrain` makes it, with `int`
coordinates (`FIntVector` members, to which offsets are added): the arguments are
converted to the `uint32_t` coordinates of `Voxel::Get`, so that a coordinate `-1` reads
outside the voxel bounds. -/
def Voxel.GetAt (v : Voxel) (x y z : Int) : Grid :=
  v.Get (toU32 x) (toU32 y) (toU32 z)

/-- DungeonGeneratorCore.cpp:265-298: the wall block of `AddTerrain` for the cell `grid` at
`(x, y, z)`, when a wall callback is set and wall parts are selected: the yaw angles, in
degrees, of the walls passed to `mOnAddWall`, in order. -/
def AddTerrain_walls (voxel : Voxel) (mergeRooms : Bool) (x y z : Int) : List Int :=
  let grid := voxel.GetAt x y z
  (if grid.CanBuildWall (voxel.GetAt x (y - 1) z) Direction.North mergeRooms then [0]
    else []) ++
  (if grid.CanBuildWall (voxel.GetAt x (y + 1) z) Direction.South mergeRooms then [180]
    else []) ++
  (if grid.CanBuildWall (voxel.GetAt (x + 1) y z) Direction.East mergeRooms then [90]
    else []) ++
  (if grid.CanBuildWall (voxel.GetAt (x - 1) y z) Direction.West mergeRooms then [-90]
    else [])

/-- DungeonGeneratorCore.cpp:378-412: the door block of `AddTerrain` for the cell `grid` at
`(x, y, z)`, when door parts are selected: the yaw angles, in degrees, of the doors passed
to `SpawnDoorActor`, in order. -/
def AddTerrain_gates (voxel : Voxel) (x y z : Int) : List Int :=
  let grid := voxel.GetAt x y z
  (if grid.CanBuildGate (voxel.GetAt x (y - 1) z) Direction.North then [0] else []) ++
  (if grid.CanBuildGate (voxel.GetAt x (y + 1) z) Direction.South then [180] else []) ++
  (if grid.CanBuildGate (voxel.GetAt (x + 1) y z) Direction.East then [90] else []) ++
  (if grid.CanBuildGate (voxel.GetAt (x - 1) y z) Direction.West then [-90] else [])

/-- The yaw angle, in degrees, that `AddTerrain` gives to the wall or door of a face
(DungeonGeneratorCore.cpp:274-295, 387-410). -/
def faceYaw : Direction → Int
  | Direction.North => 0
  | Direction.South => 180
  | Direction.East => 90
  | Direction.West => -90

/-- DungeonGeneratorCore.cpp:329-338: the loop that measures the ceiling height of the
column `(cx, cy)` above the level `z`, started with `gridHeight`; every iteration uses
one unit of `fuel`, and `none` means that the loop has not ended when the fuel is used
up. `location.Z + gridHeight` is computed in `uint32_t`. -/
def AddTerrain_ceilingHeight (voxel : Voxel) (grid : Grid) (cx cy : Int) (z : Nat) :
    Nat → Nat → Option Nat
  | 0, _ => none
  | fuel + 1, gridHeight =>
    let roofGrid := voxel.GetAt cx cy (u32 (z + gridHeight))
    if roofGrid.GetType == GridType.OutOfBounds then
      some gridHeight
    else if !grid.CanBuildRoof roofGrid false then
      some gridHeight
    else
      AddTerrain_ceilingHeight voxel grid cx cy z fuel (gridHeight + 1)

/-- The local variables of the pillar block of `AddTerrain` that decide the call of the
pillar callback (DungeonGeneratorCore.cpp:306-309); the direction vector of the pillar,
computed in floating point, is left out. -/
structure PillarScan where
  wallCount : Nat
  onFloor : Bool
  pillarGridHeight : Nat
  deriving DecidableEq, Repr

/-- DungeonGeneratorCore.cpp:314-342: the body of the two nested loops of the pillar block
for the corner `(dx, dy)` of the cell `grid` at `(x, y, z)`. -/
def AddTerrain_pillarCorner (fuel : Nat) (voxel : Voxel) (grid : Grid) (x y z : Nat)
    (scan : PillarScan) (dx dy : Int) : Option PillarScan :=
  let result := voxel.GetAt (x + dx) (y + dy) z
  let wallCount := if grid.CanBuildPillar result then scan.wallCount + 1 else scan.wallCount
  let baseFloorGrid := voxel.GetAt (x + dx) (y + dy) z
  let underFloorGrid := voxel.GetAt (x + dx) (y + dy) ((z : Int) - 1)
  if baseFloorGrid.CanBuildSlope || baseFloorGrid.CanBuildFloor underFloorGrid false then
    match AddTerrain_ceilingHeight voxel grid (x + dx) (y + dy) z fuel 1 with
    | none => none
    | some gridHeight =>
      some ⟨wallCount, true,
        if scan.pillarGridHeight < gridHeight then gridHeight else scan.pillarGridHeight⟩
  else
    some ⟨wallCount, scan.onFloor, scan.pillarGridHeight⟩

/-- DungeonGeneratorCore.cpp:306-343: the two nested loops of the pillar block of
`AddTerrain` for the cell at `(x, y, z)` (`dy` from -1 to 0, and inside `dx` from -1 to
0), each ceiling-height loop being given `fuel` iterations. -/
def AddTerrain_pillarScan (fuel : Nat) (voxel : Voxel) (x y z : Nat) : Option PillarScan :=
  let grid := voxel.GetAt x y z
  (AddTerrain_pillarCorner fuel voxel grid x y z ⟨0, false, 1⟩ (-1) (-1)).bind fun s1 =>
  (AddTerrain_pillarCorner fuel voxel grid x y z s1 0 (-1)).bind fun s2 =>
  (AddTerrain_pillarCorner fuel voxel grid x y z s2 (-1) 0).bind fun s3 =>
  AddTerrain_pillarCorner fuel voxel grid x y z s3 0 0

/-- DungeonGeneratorCore.cpp:344-353: the grid height that the pillar block passes to
`mOnResetPillar` for the cell at `(x, y, z)` when pillar parts are selected, if it calls
it at all; the outer `none` means that a ceiling-height loop has not ended within `fuel`
iterations. -/
def AddTerrain_pillar (fuel : Nat) (voxel : Voxel) (x y z : Nat) : Option (Option Nat) :=
  (AddTerrain_pillarScan fuel voxel x y z).map fun scan =>
    if scan.onFloor && decide (0 < scan.wallCount) && decide (scan.wallCount < 4) then
      some scan.pillarGridHeight
    else
      none

/-- A voxel of width 1, depth 1 and height 3 holding one column of Floor cells of
room 1. -/
def floorColumn : Voxel :=
  ⟨1, 1, 3, fun _ _ _ =>
    ⟨GridType.Floor, 1, Direction.North, GridProps.None, false, false, false, false⟩⟩

/-! ## Pixel writes of `GenerateMiniMapTexture` -/

/-- The values that the loop variable `v` takes in a loop
`for (uint32_t v = start; v < start + count; ++v)` of the drawing helpers, where `start`
is a `uint32_t` value: the bound `start + count` is computed in `uint32_t`, so the loop
body does not run at all when the sum wraps around. -/
def loopValues (start count : Nat) : List Nat :=
  (List.range (u32 (start + count) - start)).map fun i => start + i

/-- DungeonGeneratorCore.cpp:888-897: the indices into `pixels` that `rect(x, y, color)`
writes, in order, for the texture size `textureWidthHeight` and the scale
`worldToTextureScale`; the index expression is computed in `uint32_t`. -/
def rectWrites (textureWidthHeight worldToTextureScale x y : Nat) : List Nat :=
  let px := u32 (x * worldToTextureScale)
  let py := u32 (y * worldToTextureScale)
  (loopValues py worldToTextureScale).flatMap fun oy =>
    (loopValues px worldToTextureScale).map fun ox =>
      u32 (textureWidthHeight * oy + ox)

/-- DungeonGeneratorCore.cpp:899-930: the indices into `pixels` that
`line(x, y, dir, color)` writes, in order. -/
def lineWrites (textureWidthHeight worldToTextureScale x y : Nat) (dir : Direction) :
    List Nat :=
  let px := u32 (x * worldToTextureScale)
  let py := u32 (y * worldToTextureScale)
  match dir with
  | Direction.North =>
    (loopValues px worldToTextureScale).map fun ox => u32 (textureWidthHeight * py + ox)
  | Direction.South =>
    let py := u32 (py + worldToTextureScale)
    (loopValues px worldToTextureScale).map fun ox => u32 (textureWidthHeight * py + ox)
  | Direction.East =>
    let px := u32 (px + worldToTextureScale)
    (loopValues py worldToTextureScale).map fun oy => u32 (textureWidthHeight * oy + px)
  | Direction.West =>
    (loopValues py worldToTextureScale).map fun oy => u32 (textureWidthHeight * oy + px)

/-- The indices into `pixels` written by one drawing call. -/
def DrawCall.writes (textureWidthHeight worldToTextureScale : Nat) : DrawCall → List Nat
  | DrawCall.rect x y _ => rectWrites textureWidthHeight worldToTextureScale x y
  | DrawCall.line x y dir _ => lineWrites textureWidthHeight worldToTextureScale x y dir

/-- DungeonGeneratorCore.cpp:873-988: all indices into `pixels`, a buffer of
`textureWidthHeight * textureWidthHeight` bytes (lines 879-881), that
`GenerateMiniMapTexture(worldToTextureScale, textureWidthHeight, currentLevel)` writes
while drawing, in order. -/
def GenerateMiniMapTexture_writes (parameter : Option UDungeonGenerateParameter)
    (voxel : Voxel) (floorColor wallColor : Nat → Nat)
    (worldToTextureScale textureWidthHeight currentLevel : Nat) : Option (List Nat) :=
  (GenerateMiniMapTexture parameter voxel floorColor wallColor currentLevel).map fun calls =>
    calls.flatMap (DrawCall.writes textureWidthHeight worldToTextureScale)

/-- A voxel of width 1, depth 1 and height 1 holding one Floor cell of room 1. -/
def singleFloorCell : Voxel :=
  ⟨1, 1, 1, fun _ _ _ =>
    ⟨GridType.Floor, 1, Direction.North, GridProps.None, false, false, false, false⟩⟩

/-! ## `ADungeonGenerateActor::PreInitializeComponents` -/

/-- The mesh-added callbacks that `PreInitializeComponents` registers on the generator
core (DungeonGenerateActor.cpp:230-265). -/
inductive MeshCallback where
  | OnAddFloor
  | OnAddSlope
  | OnAddWall
  | OnAddRoomRoof
  | OnAddAisleRoof
  | OnAddPillar
  deriving DecidableEq, Repr

/-- The mesh-created events of the actor (DungeonGenerateActor.h:148-164). -/
inductive ActorEvent where
  | OnCreateFloor
  | OnCreateSlope
  | OnCreateWall
  | OnCreateRoomRoof
  | OnCreateAisleRoof
  | OnCreatePillar
  deriving DecidableEq, Repr

/-- The arrays of instanced mesh components of the actor
(DungeonGenerateActor.h:129-145). -/
inductive MeshArray where
  | FloorMeshs
  | SlopeMeshs
  | WallMeshs
  | RoomRoofMeshs
  | AisleRoofMeshs
  | PillarMeshs
  deriving DecidableEq, Repr

/-- What a mesh-added callback does: `AddInstance(meshes, staticMesh, transform)` or
`event.Broadcast(transform)`. -/
inductive ActorAction where
  | AddInstance (meshes : MeshArray)
  | Broadcast (event : ActorEvent)
  deriving DecidableEq, Repr

/-- DungeonGenerateActor.cpp:230-265: the body of each mesh-added callback registered by
`PreInitializeComponents` when `InstancedStaticMesh` is set, as the actions it performs
for one added mesh, in order. -/
def PreInitializeComponents_callback : MeshCallback → List ActorAction
  | MeshCallback.OnAddFloor =>
    [ActorAction.AddInstance MeshArray.FloorMeshs,
      ActorAction.Broadcast ActorEvent.OnCreateFloor]
  | MeshCallback.OnAddSlope =>
    [ActorAction.AddInstance MeshArray.SlopeMeshs,
      ActorAction.Broadcast ActorEvent.OnCreateSlope]
  | MeshCallback.OnAddWall =>
    [ActorAction.AddInstance MeshArray.WallMeshs,
      ActorAction.Broadcast ActorEvent.OnCreateWall]
  | MeshCallback.OnAddRoomRoof =>
    [ActorAction.AddInstance MeshArray.RoomRoofMeshs,
      ActorAction.Broadcast ActorEvent.OnCreateAisleRoof]
  | MeshCallback.OnAddAisleRoof =>
    [ActorAction.AddInstance MeshArray.AisleRoofMeshs,
      ActorAction.Broadcast ActorEvent.OnCreateAisleRoof]
  | MeshCallback.OnAddPillar =>
    [ActorAction.AddInstance MeshArray.PillarMeshs,
      ActorAction.Broadcast ActorEvent.OnCreatePillar]

/-- The actor event that belongs to a mesh-added callback: the one of its own kind. -/
def MeshCallback.ownEvent : MeshCallback → ActorEvent
  | MeshCallback.OnAddFloor => ActorEvent.OnCreateFloor
  | MeshCallback.OnAddSlope => ActorEvent.OnCreateSlope
  | MeshCallback.OnAddWall => ActorEvent.OnCreateWall
  | MeshCallback.OnAddRoomRoof => ActorEvent.OnCreateRoomRoof
  | MeshCallback.OnAddAisleRoof => ActorEvent.OnCreateAisleRoof
  | MeshCallback.OnAddPillar => ActorEvent.OnCreatePillar

/-! ## The BMP structures of `Core/Debug/Debug.h` -/

namespace bmp

/-- The member types used by the BMP structures of Debug.h:63-94. -/
inductive CType where
  | char
  | uint8_t
  | uint16_t
  | uint32_t
  | int32_t
  deriving DecidableEq, Repr

/-- The width in bytes of a member type, which is also its natural alignment. -/
def CType.size : CType → Nat
  | CType.char => 1
  | CType.uint8_t => 1
  | CType.uint16_t => 2
  | CType.uint32_t => 4
  | CType.int32_t => 4

/-- A member declaration `type name[count]`; `count` is 1 for a member that is not an
array. -/
structure Member where
  name : String
  type : CType
  count : Nat
  deriving DecidableEq, Repr

/-- The width in bytes of a member. -/
def Member.width (m : Member) : Nat := m.type.size * m.count

/-- The alignment of a member under `#pragma pack(pack)`: the smaller of the packing
value and the natural alignment of its type. -/
def Member.align (pack : Nat) (m : Member) : Nat := min pack m.type.size

/-- The least multiple of `a` that is at least `n`. -/
def alignUp (n a : Nat) : Nat := (n + a - 1) / a * a

/-- The offsets of the members of a structure laid out from the offset `cur` under
`#pragma pack(pack)`: each member is placed at the next offset that is a multiple of its
alignment. -/
def layoutFrom (pack : Nat) : Nat → List Member → List (String × Nat)
  | _, [] => []
  | cur, m :: rest =>
    (m.name, alignUp cur (m.align pack)) ::
      layoutFrom pack (alignUp cur (m.align pack) + m.width) rest

/-- The offset just past the last member of a structure laid out from `cur`. -/
def endFrom (pack : Nat) : Nat → List Member → Nat
  | cur, [] => cur
  | cur, m :: rest => endFrom pack (alignUp cur (m.align pack) + m.width) rest

/-- The size of a structure under `#pragma pack(pack)`: the end of its last member,
rounded up to the largest alignment of its members. -/
def structSize (pack : Nat) (members : List Member) : Nat :=
  alignUp (endFrom pack 0 members) ((members.map (Member.align pack)).foldl max 1)

/-- Debug.h:62, `#pragma pack(1)`, in force for the three structures below. -/
def pack : Nat := 1

/-- Debug.h:63-70. -/
def BMPFILEHEADER : List Member :=
  [⟨"bfType", CType.char, 2⟩,
   ⟨"bfSize", CType.uint32_t, 1⟩,
   ⟨"bfReserved1", CType.uint16_t, 1⟩,
   ⟨"bfReserved2", CType.uint16_t, 1⟩,
   ⟨"bfOffBits", CType.uint32_t, 1⟩]

/-- Debug.h:72-85. -/
def BMPINFOHEADER : List Member :=
  [⟨"biSize", CType.uint32_t, 1⟩,
   ⟨"biWidth", CType.int32_t, 1⟩,
   ⟨"biHeight", CType.int32_t, 1⟩,
   ⟨"biPlanes", CType.uint16_t, 1⟩,
   ⟨"biBitCount", CType.uint16_t, 1⟩,
   ⟨"biCompression", CType.uint32_t, 1⟩,
   ⟨"biSizeImage", CType.uint32_t, 1⟩,
   ⟨"biXPelsPerMeter", CType.int32_t, 1⟩,
   ⟨"biYPelsPerMeter", CType.int32_t, 1⟩,
   ⟨"biClrUsed", CType.uint32_t, 1⟩,
   ⟨"biClrImportant", CType.uint32_t, 1⟩]

/-- Debug.h:87-92. -/
def RGBCOLOR : List Member :=
  [⟨"rgbBlue", CType.uint8_t, 1⟩,
   ⟨"rgbGreen", CType.uint8_t, 1⟩,
   ⟨"rgbRed", CType.uint8_t, 1⟩]

end bmp

/-! ## `Generator::FindAisle` -/

/-- Modelled from the spec: `Point` (the spec's PointAndRoom; declared in a header that is
not among the sources), a point in grid coordinates with a back-reference to at most one
room. The room is held by its identity as a `shared_ptr`, `none` being `nullptr`. -/
structure Point where
  X : Int
  Y : Int
  Z : Int
  mOwnerRoom : Option Nat
  deriving DecidableEq, Repr

/-- The accessor `Point::GetOwnerRoom`. -/
def Point.GetOwnerRoom (p : Point) : Option Nat := p.mOwnerRoom

/-- Modelled from the spec: `Aisle` (declared in `Aisle.h`, which is not among the
sources), a pair of endpoints with the flags unique-locked and main-route. -/
structure Aisle where
  mPoint0 : Point
  mPoint1 : Point
  mUniqueLocked : Bool
  mMainRoute : Bool
  deriving DecidableEq, Repr

namespace Aisle

/-- The accessor `Aisle::GetPoint(index)` for the indices 0 and 1. -/
def GetPoint (a : Aisle) (index : Nat) : Point :=
  if index = 0 then a.mPoint0 else a.mPoint1

/-- The aisle with its two endpoints exchanged. -/
def swap (a : Aisle) : Aisle := ⟨a.mPoint1, a.mPoint0, a.mUniqueLocked, a.mMainRoute⟩

end Aisle

/-- Generator.h:158-170, `Generator::FindAisle(room, func)` over the stored aisles
`mAisles` (the overload of lines 145-156 has the same loop): the aisles on which `func` is
called, in order, with the state of the callback after the loop. The callback
`std::function<bool(const Aisle&)>` may carry state of its own: `func s a` gives its
answer on the aisle `a` in the state `s`, and its next state. -/
def Generator.FindAisle {σ : Type} (mAisles : List Aisle) (room : Option Nat)
    (func : σ → Aisle → Bool × σ) (s : σ) : List Aisle × σ :=
  match mAisles with
  | [] => ([], s)
  | aisle :: rest =>
    let room0 := (aisle.GetPoint 0).GetOwnerRoom
    let room1 := (aisle.GetPoint 1).GetOwnerRoom
    if room == room0 || room == room1 then
      if (func s aisle).1 then
        ([aisle], (func s aisle).2)
      else
        (aisle :: (Generator.FindAisle rest room func (func s aisle).2).1,
          (Generator.FindAisle rest room func (func s aisle).2).2)
    else
      Generator.FindAisle rest room func s

/-- The statement of the specification for `FindAisle`, first half: the aisle has `room` as
the owner room of endpoint 0 or of endpoint 1. -/
def isEndpointRoom (room : Option Nat) (aisle : Aisle) : Bool :=
  aisle.mPoint0.mOwnerRoom = room ∨ aisle.mPoint1.mOwnerRoom = room

/-- The statement of the specification for `FindAisle`, second half: the aisles of a list
are offered to `func` in order, up to and including the first one on which `func` returns
true, and none after it. -/
def offerUntilTrue {σ : Type} (func : σ → Aisle → Bool × σ) : List Aisle → σ → List Aisle × σ
  | [], s => ([], s)
  | aisle :: rest, s =>
    if (func s aisle).1 then
      ([aisle], (func s aisle).2)
    else
      (aisle :: (offerUntilTrue func rest (func s aisle).2).1,
        (offerUntilTrue func rest (func s aisle).2).2)

/-! ## Properties of the wall predicate -/

/-- C1: between two cells that are both Floor or Deck, with `mergeRooms = false`, a wall
is built exactly when the two identifiers differ. -/
theorem CanBuildWall_rooms_unmerged (s t : Grid) (dir : Direction)
    (hs : s.mType = GridType.Floor ∨ s.mType = GridType.Deck)
    (ht : t.mType = GridType.Floor ∨ t.mType = GridType.Deck) :
    s.CanBuildWall t dir false = true ↔ s.mIdentifier ≠ t.mIdentifier := by
  rcases hs with hs | hs <;> rcases ht with ht | ht <;>
    simp [Grid.CanBuildWall, Grid.IsKindOfRoomTypeWithoutGate, hs, ht]

/-- C1, at a concrete pair: a Floor cell of room 1 facing a Deck cell of room 2. -/
theorem CanBuildWall_rooms_unmerged_witness :
    (⟨GridType.Floor, 1, Direction.North, GridProps.None, false, false, false, false⟩ : Grid).CanBuildWall
        ⟨GridType.Deck, 2, Direction.North, GridProps.None, false, false, false, false⟩
        Direction.East false = true ↔ (1 : Nat) ≠ 2 :=
  CanBuildWall_rooms_unmerged
    ⟨GridType.Floor, 1, Direction.North, GridProps.None, false, false, false, false⟩
    ⟨GridType.Deck, 2, Direction.North, GridProps.None, false, false, false, false⟩
    Direction.East (Or.inl rfl) (Or.inr rfl)

/-- C2: with `mergeRooms = true`, no wall is built between two cells that are both
Floor or Deck, whatever their identifiers and the direction. -/
theorem CanBuildWall_rooms_merged (s t : Grid) (dir : Direction)
    (hs : s.mType = GridType.Floor ∨ s.mType = GridType.Deck)
    (ht : t.mType = GridType.Floor ∨ t.mType = GridType.Deck) :
    s.CanBuildWall t dir true = false := by
  rcases hs with hs | hs <;> rcases ht with ht | ht <;>
    simp [Grid.CanBuildWall, Grid.IsKindOfRoomTypeWithoutGate, Grid.IsKindOfGateType,
      Grid.IsKindOfAisleType, Grid.IsKindOfSlopeType, Grid.IsKindOfSpatialType, hs, ht]

/-- C2, at a concrete pair: a Floor cell of room 1 facing a Deck cell of room 2. -/
theorem CanBuildWall_rooms_merged_witness :
    (⟨GridType.Floor, 1, Direction.North, GridProps.None, false, false, false, false⟩ : Grid).CanBuildWall
        ⟨GridType.Deck, 2, Direction.North, GridProps.None, false, false, false, false⟩
        Direction.East true = false :=
  CanBuildWall_rooms_merged
    ⟨GridType.Floor, 1, Direction.North, GridProps.None, false, false, false, false⟩
    ⟨GridType.Deck, 2, Direction.North, GridProps.None, false, false, false, false⟩
    Direction.East (Or.inl rfl) (Or.inr rfl)

/-- C3: the minimap wall predicate and the wall predicate differ exactly on the pairs
where `s` is Floor or Deck and `t` is Slope or Atrium; on those pairs `CanBuildWall` is
true and `CanBuildWallForMinimap` is false, and on every other input the two are equal. -/
theorem CanBuildWallForMinimap_vs_CanBuildWall (s t : Grid) (dir : Direction)
    (mergeRooms : Bool) :
    (((s.mType = GridType.Floor ∨ s.mType = GridType.Deck) ∧
        (t.mType = GridType.Slope ∨ t.mType = GridType.Atrium)) →
      s.CanBuildWall t dir mergeRooms = true ∧
        s.CanBuildWallForMinimap t dir mergeRooms = false) ∧
    (¬ ((s.mType = GridType.Floor ∨ s.mType = GridType.Deck) ∧
        (t.mType = GridType.Slope ∨ t.mType = GridType.Atrium)) →
      s.CanBuildWallForMinimap t dir mergeRooms = s.CanBuildWall t dir mergeRooms) := by
  obtain ⟨sty, sid, sdir, sp, sf, sr, sm, sc⟩ := s
  obtain ⟨tty, tid, tdir, tp, tf, tr, tm, tc⟩ := t
  cases sty <;> cases tty <;> cases mergeRooms <;>
    simp [Grid.CanBuildWall, Grid.CanBuildWallForMinimap, Grid.IsKindOfRoomTypeWithoutGate,
      Grid.IsKindOfGateType, Grid.IsKindOfRoomType, Grid.IsKindOfAisleType,
      Grid.IsKindOfSlopeType, Grid.IsKindOfSpatialType] <;> rfl

/-- C3, at a concrete pair: a Floor cell facing a Slope cell gets a wall from
`CanBuildWall` and none from `CanBuildWallForMinimap`. -/
theorem CanBuildWallForMinimap_vs_CanBuildWall_witness :
    (⟨GridType.Floor, 1, Direction.North, GridProps.None, false, false, false, false⟩ : Grid).CanBuildWall
        ⟨GridType.Slope, 2, Direction.East, GridProps.None, false, false, false, false⟩
        Direction.East false = true ∧
    (⟨GridType.Floor, 1, Direction.North, GridProps.None, false, false, false, false⟩ : Grid).CanBuildWallForMinimap
        ⟨GridType.Slope, 2, Direction.East, GridProps.None, false, false, false, false⟩
        Direction.East false = false :=
  (CanBuildWallForMinimap_vs_CanBuildWall
    ⟨GridType.Floor, 1, Direction.North, GridProps.None, false, false, false, false⟩
    ⟨GridType.Slope, 2, Direction.East, GridProps.None, false, false, false, false⟩
    Direction.East false).1 ⟨Or.inl rfl, Or.inl rfl⟩

/-! ## The minimap rasteriser -/

/-- C4: on the voxel `floorBesideSlope` the rasteriser draws the wall line
`line(0, 0, East, wallColor)` on the face between the Floor cell `(0, 0, 0)` and its
eastern Slope neighbour, because it tests `CanBuildWall`; the predicate written for the
minimap, `CanBuildWallForMinimap`, is false on that same face. The grey levels are those
of level 0 with `currentLevel = 0` (floor 153, wall 255). -/
theorem GenerateMiniMapTexture_draws_wall_toward_slope :
    (floorBesideSlope.Get 0 0 0).mType = GridType.Floor ∧
    (floorBesideSlope.Get 1 0 0).mType = GridType.Slope ∧
    (floorBesideSlope.Get 0 0 0).CanBuildWallForMinimap (floorBesideSlope.Get 1 0 0)
      Direction.East false = false ∧
    GenerateMiniMapTexture (some ⟨false⟩) floorBesideSlope (fun _ => 153) (fun _ => 255) 0 =
      some [DrawCall.rect 0 0 153,
        DrawCall.line 0 0 Direction.North 255,
        DrawCall.line 0 0 Direction.South 255,
        DrawCall.line 0 0 Direction.East 255,
        DrawCall.line 0 0 Direction.West 255,
        DrawCall.rect 1 0 153,
        DrawCall.line 1 0 Direction.North 255,
        DrawCall.line 1 0 Direction.South 255,
        DrawCall.line 1 0 Direction.East 255] := by
  refine ⟨rfl, rfl, rfl, ?_⟩
  decide

/-! ## Floor and roof predicates -/

/-- C5 as stated fails: an Aisle cell facing a Floor cell that carries the same
identifier builds a floor, although the neighbour has neither a different identifier nor
one of the types Aisle, Slope, Atrium, Empty, OutOfBounds. -/
theorem CanBuildFloor_aisle_counterexample :
    ¬ ((⟨GridType.Aisle, 1, Direction.North, GridProps.None, false, false, false, false⟩ : Grid).CanBuildFloor
          ⟨GridType.Floor, 1, Direction.North, GridProps.None, false, false, false, false⟩
          false = true ↔
        (GridType.Aisle ∈ [GridType.Floor, GridType.Deck, GridType.Gate, GridType.Aisle] ∧
          ((1 : Nat) ≠ 1 ∨
            GridType.Floor ∈ [GridType.Aisle, GridType.Slope, GridType.Atrium, GridType.Empty,
              GridType.OutOfBounds]))) := by
  decide

/-- C5, amended: when the suppression check is off or the no-floor flag of `s` is clear,
`CanBuildFloor s t check` is true exactly when `s` is Aisle (whatever `t` is), or `s` is
Floor, Deck or Gate and `t` has a different identifier or is Aisle, Slope, Atrium, Empty
or OutOfBounds; in particular it is false when `s` is Floor, Deck or Gate and `t` is a
Floor, Deck or Gate cell with the identifier of `s`. -/
theorem CanBuildFloor_table (s t : Grid) (check : Bool)
    (h : check = false ∨ s.mNoFloorMeshGeneration = false) :
    (s.CanBuildFloor t check = true ↔
      (s.mType = GridType.Aisle ∨
        (s.mType ∈ [GridType.Floor, GridType.Deck, GridType.Gate] ∧
          (t.mIdentifier ≠ s.mIdentifier ∨
            t.mType ∈ [GridType.Aisle, GridType.Slope, GridType.Atrium, GridType.Empty,
              GridType.OutOfBounds])))) ∧
    (s.mType ∈ [GridType.Floor, GridType.Deck, GridType.Gate] →
      t.mType ∈ [GridType.Floor, GridType.Deck, GridType.Gate] →
      t.mIdentifier = s.mIdentifier → s.CanBuildFloor t check = false) := by
  obtain ⟨sty, sid, sdir, sp, sf, sr, sm, sc⟩ := s
  obtain ⟨tty, tid, tdir, tp, tf, tr, tm, tc⟩ := t
  have hc : (check && sf) = false := by
    rcases h with h | h
    · simp [h]
    · simp only at h
      simp [h]
  cases sty <;> cases tty <;>
    simp [Grid.CanBuildFloor, Grid.IsNoFloorMeshGeneration, Grid.GetIdentifier,
      Grid.IsKindOfRoomType, Grid.IsKindOfAisleType, Grid.IsKindOfSlopeType,
      Grid.IsKindOfSpatialType, hc]

/-- C5, amended, at a concrete pair: a Floor cell with the no-floor flag set, checked with
`check = false`, facing a Floor cell of the same room. -/
theorem CanBuildFloor_table_witness :
    (⟨GridType.Floor, 1, Direction.North, GridProps.None, true, false, false, false⟩ : Grid).CanBuildFloor
      ⟨GridType.Floor, 1, Direction.North, GridProps.None, false, false, false, false⟩
      false = false :=
  (CanBuildFloor_table
    ⟨GridType.Floor, 1, Direction.North, GridProps.None, true, false, false, false⟩
    ⟨GridType.Floor, 1, Direction.North, GridProps.None, false, false, false, false⟩
    false (Or.inl rfl)).2 (by decide) (by decide) rfl

/-- C6: when the suppression check is off or the no-roof flag of `s` is clear,
`CanBuildRoof s t check` is true exactly when `s` is Floor, Deck or Gate and `t` is Deck,
Gate, Aisle, Slope, Atrium, Empty or OutOfBounds; or `s` is Aisle and `t` is room-like,
aisle, slope-like or spatial; or `s` is Slope or Atrium and `t` is Floor, Deck, Gate,
Aisle, Slope, Empty or OutOfBounds. In particular it is false when `s` is Empty or
OutOfBounds, when `s` is room-like and `t` is Floor, and when `s` is slope-like and `t`
is Atrium. -/
theorem CanBuildRoof_table (s t : Grid) (check : Bool)
    (h : check = false ∨ s.mNoRoofMeshGeneration = false) :
    (s.CanBuildRoof t check = true ↔
      ((s.mType ∈ [GridType.Floor, GridType.Deck, GridType.Gate] ∧
          t.mType ∈ [GridType.Deck, GridType.Gate, GridType.Aisle, GridType.Slope,
            GridType.Atrium, GridType.Empty, GridType.OutOfBounds]) ∨
        (s.mType = GridType.Aisle ∧
          t.mType ∈ [GridType.Floor, GridType.Deck, GridType.Gate, GridType.Aisle,
            GridType.Slope, GridType.Atrium, GridType.Empty, GridType.OutOfBounds]) ∨
        (s.mType ∈ [GridType.Slope, GridType.Atrium] ∧
          t.mType ∈ [GridType.Floor, GridType.Deck, GridType.Gate, GridType.Aisle,
            GridType.Slope, GridType.Empty, GridType.OutOfBounds]))) ∧
    (s.mType ∈ [GridType.Empty, GridType.OutOfBounds] → s.CanBuildRoof t check = false) ∧
    (s.mType ∈ [GridType.Floor, GridType.Deck, GridType.Gate] → t.mType = GridType.Floor →
      s.CanBuildRoof t check = false) ∧
    (s.mType ∈ [GridType.Slope, GridType.Atrium] → t.mType = GridType.Atrium →
      s.CanBuildRoof t check = false) := by
  obtain ⟨sty, sid, sdir, sp, sf, sr, sm, sc⟩ := s
  obtain ⟨tty, tid, tdir, tp, tf, tr, tm, tc⟩ := t
  have hc : (check && sr) = false := by
    rcases h with h | h
    · simp [h]
    · simp only at h
      simp [h]
  cases sty <;> cases tty <;>
    simp [Grid.CanBuildRoof, Grid.IsNoRoofMeshGeneration, Grid.IsKindOfRoomType,
      Grid.IsKindOfAisleType, Grid.IsKindOfSlopeType, Grid.IsKindOfSpatialType, hc]

/-- C6, at a concrete pair: a Slope cell with the no-roof flag set, checked with
`check = false`, facing an Atrium cell builds no roof. -/
theorem CanBuildRoof_table_witness :
    (⟨GridType.Slope, 3, Direction.East, GridProps.None, false, true, false, false⟩ : Grid).CanBuildRoof
      ⟨GridType.Atrium, 3, Direction.East, GridProps.None, false, false, false, false⟩
      false = false :=
  (CanBuildRoof_table
    ⟨GridType.Slope, 3, Direction.East, GridProps.None, false, true, false, false⟩
    ⟨GridType.Atrium, 3, Direction.East, GridProps.None, false, false, false, false⟩
    false (Or.inl rfl)).2.2.2 (by decide) rfl

/-- C7: mesh suppression short-circuits and does nothing else. With the check on,
`CanBuildFloor` is false when the no-floor flag of `s` is set and `CanBuildRoof` is false
when its no-roof flag is set; when the flag is clear the checked result equals the
unchecked one; and the unchecked results are the same for any two cells that differ only
in their two suppression flags. -/
theorem mesh_suppression_short_circuit (s t : Grid) :
    (s.mNoFloorMeshGeneration = true → s.CanBuildFloor t true = false) ∧
    (s.mNoRoofMeshGeneration = true → s.CanBuildRoof t true = false) ∧
    (s.mNoFloorMeshGeneration = false → s.CanBuildFloor t true = s.CanBuildFloor t false) ∧
    (s.mNoRoofMeshGeneration = false → s.CanBuildRoof t true = s.CanBuildRoof t false) ∧
    (∀ noFloor noRoof : Bool,
      (⟨s.mType, s.mIdentifier, s.mDirection, s.mProps, noFloor, noRoof, s.mMainRoute,
          s.mCatwalk⟩ : Grid).CanBuildFloor t false = s.CanBuildFloor t false ∧
      (⟨s.mType, s.mIdentifier, s.mDirection, s.mProps, noFloor, noRoof, s.mMainRoute,
          s.mCatwalk⟩ : Grid).CanBuildRoof t false = s.CanBuildRoof t false) := by
  refine ⟨?_, ?_, ?_, ?_, ?_⟩
  · intro h
    simp [Grid.CanBuildFloor, Grid.IsNoFloorMeshGeneration, h]
  · intro h
    simp [Grid.CanBuildRoof, Grid.IsNoRoofMeshGeneration, h]
  · intro h
    simp [Grid.CanBuildFloor, Grid.IsNoFloorMeshGeneration, h]
  · intro h
    simp [Grid.CanBuildRoof, Grid.IsNoRoofMeshGeneration, h]
  · intro noFloor noRoof
    constructor
    · simp [Grid.CanBuildFloor, Grid.IsKindOfRoomType, Grid.IsKindOfAisleType,
        Grid.GetIdentifier]
    · simp [Grid.CanBuildRoof, Grid.IsKindOfRoomType, Grid.IsKindOfAisleType,
        Grid.IsKindOfSlopeType]

/-- C7, at a concrete pair: a Floor cell of room 1 with both suppression flags set,
facing an Empty cell, builds neither floor nor roof under the check. -/
theorem mesh_suppression_short_circuit_witness :
    (⟨GridType.Floor, 1, Direction.North, GridProps.None, true, true, false, false⟩ : Grid).CanBuildFloor
      ⟨GridType.Empty, 0, Direction.North, GridProps.None, false, false, false, false⟩
      true = false ∧
    (⟨GridType.Floor, 1, Direction.North, GridProps.None, true, true, false, false⟩ : Grid).CanBuildRoof
      ⟨GridType.Empty, 0, Direction.North, GridProps.None, false, false, false, false⟩
      true = false :=
  ⟨(mesh_suppression_short_circuit
      ⟨GridType.Floor, 1, Direction.North, GridProps.None, true, true, false, false⟩
      ⟨GridType.Empty, 0, Direction.North, GridProps.None, false, false, false, false⟩).1 rfl,
    (mesh_suppression_short_circuit
      ⟨GridType.Floor, 1, Direction.North, GridProps.None, true, true, false, false⟩
      ⟨GridType.Empty, 0, Direction.North, GridProps.None, false, false, false, false⟩).2.1 rfl⟩

/-! ## The wall predicate, branch by branch -/

/-- C8: for a Gate cell `s`, toward a room-like or slope-like `t` a wall is built exactly
when the identifiers differ and the gate's axis differs from the axis of `dir`; toward
an Empty or OutOfBounds `t` a wall is built; toward an Aisle `t` none is. -/
theorem CanBuildWall_gate (s t : Grid) (dir : Direction) (mergeRooms : Bool)
    (hs : s.mType = GridType.Gate) :
    (t.mType ∈ [GridType.Floor, GridType.Deck, GridType.Gate, GridType.Slope,
        GridType.Atrium] →
      (s.CanBuildWall t dir mergeRooms = true ↔
        (s.mIdentifier ≠ t.mIdentifier ∧
          s.mDirection.IsNorthSouth ≠ dir.IsNorthSouth))) ∧
    (t.mType ∈ [GridType.Empty, GridType.OutOfBounds] →
      s.CanBuildWall t dir mergeRooms = true) ∧
    (t.mType = GridType.Aisle → s.CanBuildWall t dir mergeRooms = false) := by
  obtain ⟨sty, sid, sdir, sp, sf, sr, sm, sc⟩ := s
  obtain ⟨tty, tid, tdir, tp, tf, tr, tm, tc⟩ := t
  simp only at hs
  subst hs
  cases tty <;> cases mergeRooms <;>
    simp [Grid.CanBuildWall, Grid.IsKindOfRoomTypeWithoutGate, Grid.IsKindOfGateType,
      Grid.IsKindOfRoomType, Grid.IsKindOfSlopeType, Grid.IsKindOfSpatialType,
      Grid.GetIdentifier, Grid.GetDirection]

/-- C8, at a concrete pair: a Gate of room 1 facing north, looking east at a Floor cell
of room 2. -/
theorem CanBuildWall_gate_witness :
    (⟨GridType.Gate, 1, Direction.North, GridProps.None, false, false, false, false⟩ : Grid).CanBuildWall
        ⟨GridType.Floor, 2, Direction.North, GridProps.None, false, false, false, false⟩
        Direction.East false = true ↔
      ((1 : Nat) ≠ 2 ∧ Direction.North.IsNorthSouth ≠ Direction.East.IsNorthSouth) :=
  (CanBuildWall_gate
    ⟨GridType.Gate, 1, Direction.North, GridProps.None, false, false, false, false⟩
    ⟨GridType.Floor, 2, Direction.North, GridProps.None, false, false, false, false⟩
    Direction.East false rfl).1 (by decide)

/-- C9: for a Floor or Deck cell `s`, outside the room-to-room rule (that is, when
`mergeRooms` is true or `t` is not Floor or Deck), a wall is built exactly when `t` is
Aisle, Slope, Atrium, Empty or OutOfBounds; in particular no wall is built toward a Gate
cell, whatever the identifiers and `mergeRooms`. -/
theorem CanBuildWall_room_without_gate (s t : Grid) (dir : Direction) (mergeRooms : Bool)
    (hs : s.mType = GridType.Floor ∨ s.mType = GridType.Deck) :
    ((mergeRooms = true ∨ ¬ (t.mType = GridType.Floor ∨ t.mType = GridType.Deck)) →
      (s.CanBuildWall t dir mergeRooms = true ↔
        t.mType ∈ [GridType.Aisle, GridType.Slope, GridType.Atrium, GridType.Empty,
          GridType.OutOfBounds])) ∧
    (t.mType = GridType.Gate → s.CanBuildWall t dir mergeRooms = false) := by
  obtain ⟨sty, sid, sdir, sp, sf, sr, sm, sc⟩ := s
  obtain ⟨tty, tid, tdir, tp, tf, tr, tm, tc⟩ := t
  simp only at hs
  rcases hs with hs | hs <;> subst hs <;> cases tty <;> cases mergeRooms <;>
    simp [Grid.CanBuildWall, Grid.IsKindOfRoomTypeWithoutGate, Grid.IsKindOfGateType,
      Grid.IsKindOfAisleType, Grid.IsKindOfSlopeType, Grid.IsKindOfSpatialType]

/-- C9, at a concrete pair: a Deck cell of room 1 builds no wall toward a Gate cell of
room 2. -/
theorem CanBuildWall_room_without_gate_witness :
    (⟨GridType.Deck, 1, Direction.North, GridProps.None, false, false, false, false⟩ : Grid).CanBuildWall
      ⟨GridType.Gate, 2, Direction.West, GridProps.None, false, false, false, false⟩
      Direction.East false = false :=
  (CanBuildWall_room_without_gate
    ⟨GridType.Deck, 1, Direction.North, GridProps.None, false, false, false, false⟩
    ⟨GridType.Gate, 2, Direction.West, GridProps.None, false, false, false, false⟩
    Direction.East false (Or.inr rfl)).2 rfl

/-- C10: for an Aisle cell `s`, toward an Aisle, Slope or Atrium `t` a wall is built
exactly when the identifiers differ; toward any other `t` a wall is built exactly when
`t` is Floor, Deck, Empty or OutOfBounds, so none is built toward a Gate. -/
theorem CanBuildWall_aisle (s t : Grid) (dir : Direction) (mergeRooms : Bool)
    (hs : s.mType = GridType.Aisle) :
    (t.mType ∈ [GridType.Aisle, GridType.Slope, GridType.Atrium] →
      (s.CanBuildWall t dir mergeRooms = true ↔ t.mIdentifier ≠ s.mIdentifier)) ∧
    (t.mType ∉ [GridType.Aisle, GridType.Slope, GridType.Atrium] →
      (s.CanBuildWall t dir mergeRooms = true ↔
        t.mType ∈ [GridType.Floor, GridType.Deck, GridType.Empty, GridType.OutOfBounds])) ∧
    (t.mType = GridType.Gate → s.CanBuildWall t dir mergeRooms = false) := by
  obtain ⟨sty, sid, sdir, sp, sf, sr, sm, sc⟩ := s
  obtain ⟨tty, tid, tdir, tp, tf, tr, tm, tc⟩ := t
  simp only at hs
  subst hs
  cases tty <;> cases mergeRooms <;>
    simp [Grid.CanBuildWall, Grid.IsKindOfRoomTypeWithoutGate, Grid.IsKindOfGateType,
      Grid.IsKindOfAisleType, Grid.IsKindOfSlopeType, Grid.IsKindOfSpatialType,
      Grid.GetIdentifier]

/-- C10, at a concrete pair: an Aisle cell of aisle 4 facing a Slope cell of aisle 5. -/
theorem CanBuildWall_aisle_witness :
    (⟨GridType.Aisle, 4, Direction.North, GridProps.None, false, false, false, false⟩ : Grid).CanBuildWall
        ⟨GridType.Slope, 5, Direction.East, GridProps.None, false, false, false, false⟩
        Direction.East true = true ↔ (5 : Nat) ≠ 4 :=
  (CanBuildWall_aisle
    ⟨GridType.Aisle, 4, Direction.North, GridProps.None, false, false, false, false⟩
    ⟨GridType.Slope, 5, Direction.East, GridProps.None, false, false, false, false⟩
    Direction.East true rfl).1 (by decide)

/-- C11: for a Slope or Atrium cell `s`, toward a Slope or Atrium `t` a wall is built
exactly when the axis of `t` differs from the axis of `dir` or the identifiers differ;
toward any other `t` a wall is built exactly when `t` is Empty or OutOfBounds. An Atrium
`s` gives the same result as the Slope cell with the same other fields. -/
theorem CanBuildWall_slope_like (s t : Grid) (dir : Direction) (mergeRooms : Bool)
    (hs : s.mType = GridType.Slope ∨ s.mType = GridType.Atrium) :
    (t.mType ∈ [GridType.Slope, GridType.Atrium] →
      (s.CanBuildWall t dir mergeRooms = true ↔
        (t.mDirection.IsNorthSouth ≠ dir.IsNorthSouth ∨ t.mIdentifier ≠ s.mIdentifier))) ∧
    (t.mType ∉ [GridType.Slope, GridType.Atrium] →
      (s.CanBuildWall t dir mergeRooms = true ↔
        t.mType ∈ [GridType.Empty, GridType.OutOfBounds])) ∧
    (⟨GridType.Atrium, s.mIdentifier, s.mDirection, s.mProps, s.mNoFloorMeshGeneration,
        s.mNoRoofMeshGeneration, s.mMainRoute, s.mCatwalk⟩ : Grid).CanBuildWall t dir
        mergeRooms =
      (⟨GridType.Slope, s.mIdentifier, s.mDirection, s.mProps, s.mNoFloorMeshGeneration,
        s.mNoRoofMeshGeneration, s.mMainRoute, s.mCatwalk⟩ : Grid).CanBuildWall t dir
        mergeRooms := by
  obtain ⟨sty, sid, sdir, sp, sf, sr, sm, sc⟩ := s
  obtain ⟨tty, tid, tdir, tp, tf, tr, tm, tc⟩ := t
  simp only at hs
  rcases hs with hs | hs <;> subst hs <;> cases tty <;> cases mergeRooms <;>
    simp [Grid.CanBuildWall, Grid.IsKindOfRoomTypeWithoutGate, Grid.IsKindOfGateType,
      Grid.IsKindOfAisleType, Grid.IsKindOfSlopeType, Grid.IsKindOfSpatialType,
      Grid.GetDirection]

/-- C11, at a concrete pair: an Atrium cell of aisle 3 looking north at a Slope cell of
the same aisle that faces east. -/
theorem CanBuildWall_slope_like_witness :
    (⟨GridType.Atrium, 3, Direction.North, GridProps.None, false, false, false, false⟩ : Grid).CanBuildWall
        ⟨GridType.Slope, 3, Direction.East, GridProps.None, false, false, false, false⟩
        Direction.North false = true ↔
      (Direction.East.IsNorthSouth ≠ Direction.North.IsNorthSouth ∨ (3 : Nat) ≠ 3) :=
  (CanBuildWall_slope_like
    ⟨GridType.Atrium, 3, Direction.North, GridProps.None, false, false, false, false⟩
    ⟨GridType.Slope, 3, Direction.East, GridProps.None, false, false, false, false⟩
    Direction.North false (Or.inr rfl)).1 (by decide)

/-! ## Gate, pillar, slope, passability and colour -/

/-- C12: `CanBuildGate s t dir` is false unless `s` is a Gate; for a Gate `s` it is, when
`t` is a Gate, that both have the same direction and the inverse of that direction is
`dir`; when `t` is Slope or Atrium, that the axes of `s`, of `t` and of `dir` agree;
and otherwise that `t` is an Aisle. -/
theorem CanBuildGate_table (s t : Grid) (dir : Direction) :
    (s.mType ≠ GridType.Gate → s.CanBuildGate t dir = false) ∧
    (s.mType = GridType.Gate → t.mType = GridType.Gate →
      (s.CanBuildGate t dir = true ↔
        (s.mDirection = t.mDirection ∧ s.mDirection.Inverse = dir))) ∧
    (s.mType = GridType.Gate → t.mType ∈ [GridType.Slope, GridType.Atrium] →
      (s.CanBuildGate t dir = true ↔
        (s.mDirection.IsNorthSouth = t.mDirection.IsNorthSouth ∧
          s.mDirection.IsNorthSouth = dir.IsNorthSouth))) ∧
    (s.mType = GridType.Gate →
      t.mType ∉ [GridType.Gate, GridType.Slope, GridType.Atrium] →
      (s.CanBuildGate t dir = true ↔ t.mType = GridType.Aisle)) := by
  obtain ⟨sty, sid, sdir, sp, sf, sr, sm, sc⟩ := s
  obtain ⟨tty, tid, tdir, tp, tf, tr, tm, tc⟩ := t
  cases sty <;> cases tty <;>
    simp [Grid.CanBuildGate, Grid.IsKindOfSlopeType, Grid.IsKindOfAisleType,
      Grid.GetDirection]

/-- C12, at a concrete pair: a Gate facing north, looking south at another Gate facing
north. -/
theorem CanBuildGate_table_witness :
    (⟨GridType.Gate, 1, Direction.North, GridProps.None, false, false, false, false⟩ : Grid).CanBuildGate
        ⟨GridType.Gate, 2, Direction.North, GridProps.None, false, false, false, false⟩
        Direction.South = true ↔
      (Direction.North = Direction.North ∧ Direction.North.Inverse = Direction.South) :=
  (CanBuildGate_table
    ⟨GridType.Gate, 1, Direction.North, GridProps.None, false, false, false, false⟩
    ⟨GridType.Gate, 2, Direction.North, GridProps.None, false, false, false, false⟩
    Direction.South).2.1 rfl rfl

/-- C13: `CanBuildPillar s t` is true exactly when `t` is horizontally passable and its
type is none of Empty, Atrium, Slope; equivalently exactly when `t` is Floor, Deck, Gate
or Aisle; and it is the same for every `s`. -/
theorem CanBuildPillar_table (s t : Grid) :
    (s.CanBuildPillar t = true ↔
      (t.IsHorizontallyPassable = true ∧ t.mType ≠ GridType.Empty ∧
        t.mType ≠ GridType.Atrium ∧ t.mType ≠ GridType.Slope)) ∧
    (s.CanBuildPillar t = true ↔
      t.mType ∈ [GridType.Floor, GridType.Deck, GridType.Gate, GridType.Aisle]) ∧
    (∀ s2 : Grid, s2.CanBuildPillar t = s.CanBuildPillar t) := by
  obtain ⟨tty, tid, tdir, tp, tf, tr, tm, tc⟩ := t
  refine ⟨?_, ?_, fun _ => rfl⟩
  · cases tty <;> simp [Grid.CanBuildPillar, Grid.IsHorizontallyPassable, Grid.GetType]
  · cases tty <;> simp [Grid.CanBuildPillar, Grid.IsHorizontallyPassable, Grid.GetType]

/-- C14: `CanBuildSlope s` is true exactly when `s` is a Slope (so it is false for an
Atrium), and two cells of the same type give the same result whatever their identifier,
direction, props and flags. -/
theorem CanBuildSlope_iff (s : Grid) :
    (s.CanBuildSlope = true ↔ s.mType = GridType.Slope) ∧
    (s.mType = GridType.Atrium → s.CanBuildSlope = false) ∧
    (∀ (identifier : Nat) (direction : Direction) (props : GridProps)
        (noFloor noRoof mainRoute catwalk : Bool),
      (⟨s.mType, identifier, direction, props, noFloor, noRoof, mainRoute, catwalk⟩ :
        Grid).CanBuildSlope = s.CanBuildSlope) := by
  refine ⟨?_, ?_, ?_⟩
  · simp [Grid.CanBuildSlope]
  · intro h
    simp [Grid.CanBuildSlope, h]
  · intros
    rfl

/-- C14, at a concrete cell: an Atrium cell builds no slope. -/
theorem CanBuildSlope_iff_witness :
    (⟨GridType.Atrium, 3, Direction.East, GridProps.None, false, false, false, false⟩ :
      Grid).CanBuildSlope = false :=
  (CanBuildSlope_iff
    ⟨GridType.Atrium, 3, Direction.East, GridProps.None, false, false, false, false⟩).2.1 rfl

/-- C15: a cell is horizontally passable exactly when it is room-like, aisle or
slope-like, and vertically passable exactly when it is room-like or slope-like; so an
Aisle cell is horizontally but not vertically passable; and the two `NotPassable`
predicates are the negations of the two `Passable` ones. -/
theorem passable_table (g : Grid) :
    g.IsHorizontallyPassable =
      (g.IsKindOfRoomType || g.IsKindOfAisleType || g.IsKindOfSlopeType) ∧
    g.IsVerticallyPassable = (g.IsKindOfRoomType || g.IsKindOfSlopeType) ∧
    (g.mType = GridType.Aisle →
      g.IsHorizontallyPassable = true ∧ g.IsVerticallyPassable = false) ∧
    g.IsHorizontallyNotPassable = !g.IsHorizontallyPassable ∧
    g.IsVerticallyNotPassable = !g.IsVerticallyPassable := by
  obtain ⟨ty, id, dir, p, f, r, m, c⟩ := g
  cases ty <;>
    simp [Grid.IsHorizontallyPassable, Grid.IsVerticallyPassable,
      Grid.IsHorizontallyNotPassable, Grid.IsVerticallyNotPassable, Grid.IsKindOfRoomType,
      Grid.IsKindOfAisleType, Grid.IsKindOfSlopeType] <;> decide

/-- C15, at a concrete cell: an Aisle cell is horizontally but not vertically passable. -/
theorem passable_table_witness :
    (⟨GridType.Aisle, 4, Direction.North, GridProps.None, false, false, false, false⟩ :
        Grid).IsHorizontallyPassable = true ∧
      (⟨GridType.Aisle, 4, Direction.North, GridProps.None, false, false, false, false⟩ :
        Grid).IsVerticallyPassable = false :=
  (passable_table
    ⟨GridType.Aisle, 4, Direction.North, GridProps.None, false, false, false, false⟩).2.2.1 rfl

/-- C16: `GetTypeColor` gives blue for Floor, yellow for Deck, red for Gate, green for
Aisle, magenta for Slope, cyan for Atrium and black for both Empty and OutOfBounds; two
cells of distinct types, other than one Empty and one OutOfBounds, have distinct
colours. -/
theorem GetTypeColor_table (s t : Grid) :
    (s.mType = GridType.Floor → s.GetTypeColor = FColor.Blue) ∧
    (s.mType = GridType.Deck → s.GetTypeColor = FColor.Yellow) ∧
    (s.mType = GridType.Gate → s.GetTypeColor = FColor.Red) ∧
    (s.mType = GridType.Aisle → s.GetTypeColor = FColor.Green) ∧
    (s.mType = GridType.Slope → s.GetTypeColor = FColor.Magenta) ∧
    (s.mType = GridType.Atrium → s.GetTypeColor = FColor.Cyan) ∧
    (s.mType = GridType.Empty → s.GetTypeColor = FColor.Black) ∧
    (s.mType = GridType.OutOfBounds → s.GetTypeColor = FColor.Black) ∧
    (s.mType ≠ t.mType →
      ¬ (s.mType ∈ [GridType.Empty, GridType.OutOfBounds] ∧
          t.mType ∈ [GridType.Empty, GridType.OutOfBounds]) →
      s.GetTypeColor ≠ t.GetTypeColor) := by
  obtain ⟨sty, sid, sdir, sp, sf, sr, sm, sc⟩ := s
  obtain ⟨tty, tid, tdir, tp, tf, tr, tm, tc⟩ := t
  cases sty <;> cases tty <;>
    simp [Grid.GetTypeColor, Grid.colors, GridType.index, FColor.Blue, FColor.Yellow,
      FColor.Red, FColor.Green, FColor.Magenta, FColor.Cyan, FColor.Black]

/-- C16, at a concrete pair: a Slope cell and an Atrium cell have different colours. -/
theorem GetTypeColor_table_witness :
    (⟨GridType.Slope, 3, Direction.East, GridProps.None, false, false, false, false⟩ :
        Grid).GetTypeColor ≠
      (⟨GridType.Atrium, 3, Direction.East, GridProps.None, false, false, false, false⟩ :
        Grid).GetTypeColor :=
  (GetTypeColor_table
    ⟨GridType.Slope, 3, Direction.East, GridProps.None, false, false, false, false⟩
    ⟨GridType.Atrium, 3, Direction.East, GridProps.None, false, false, false, false⟩).2.2.2.2.2.2.2.2
    (by decide) (by decide)

/-! ## The random seed and the result of `Create` -/

/-- C17 as stated fails: with the configured seed 0 and the clock at `4294967296`
seconds (or at 0), the seed surfaced through `SetGeneratedRandomSeed` is 0. -/
theorem Create_surfaced_seed_zero_counterexample :
    CreateEvent.SetGeneratedRandomSeed 0 ∈
        (Create (some ⟨false⟩) 0 4294967296 Generator.Error.Success false).events ∧
      CreateEvent.SetGeneratedRandomSeed 0 ∈
        (Create (some ⟨false⟩) 0 0 Generator.Error.Success false).events := by
  decide

/-- C17, amended: with the configured seed 0, `Create` surfaces through
`SetGeneratedRandomSeed` the clock value truncated to `int32` and nothing else, and that
seed is nonzero exactly when the clock value is not a multiple of `2^32`. -/
theorem Create_surfaced_seed_of_clock (p : UDungeonGenerateParameter) (clock : Int)
    (lastError : Generator.Error) (withEditor : Bool) :
    CreateEvent.SetGeneratedRandomSeed (toInt32 clock) ∈
        (Create (some p) 0 clock lastError withEditor).events ∧
      ∀ n : Int,
        CreateEvent.SetGeneratedRandomSeed n ∈
            (Create (some p) 0 clock lastError withEditor).events →
          n = toInt32 clock ∧ (n ≠ 0 ↔ clock % 4294967296 ≠ 0) := by
  have hz : toInt32 clock ≠ 0 ↔ clock % 4294967296 ≠ 0 := by
    unfold toInt32
    simp only
    split <;> omega
  refine ⟨?_, ?_⟩
  · unfold Create
    by_cases h : Generator.Error.Success ≠ lastError <;> simp [h]
  · intro n hn
    have hn2 : n = toInt32 clock := by
      unfold Create at hn
      by_cases h : Generator.Error.Success ≠ lastError <;> cases withEditor <;>
        simp [h] at hn <;> exact hn
    subst hn2
    exact ⟨rfl, hz⟩

/-- C17, amended, at a concrete clock value: at `1700000000` seconds the surfaced seed is
that value, which is not 0. -/
theorem Create_surfaced_seed_of_clock_witness :
    (1700000000 : Int) = toInt32 1700000000 ∧
      ((1700000000 : Int) ≠ 0 ↔ (1700000000 : Int) % 4294967296 ≠ 0) :=
  (Create_surfaced_seed_of_clock ⟨false⟩ 1700000000 Generator.Error.Success false).2
    1700000000 (by decide)

/-- C18 as stated fails in its last clause: with the configured seed 0 and the clock at
`4294967296` seconds, `Create` passes the seed 0 to `SetSeed` and surfaces 0; a second run
configured with that surfaced seed, at the clock value `1700000000`, passes `1700000000`
to `SetSeed` and not 0, so it does not seed the generator as the first run did. -/
theorem Create_rerun_with_surfaced_seed_counterexample :
    CreateEvent.SetSeed 0 ∈
        (Create (some ⟨false⟩) 0 4294967296 Generator.Error.Success false).events ∧
      CreateEvent.SetGeneratedRandomSeed 0 ∈
        (Create (some ⟨false⟩) 0 4294967296 Generator.Error.Success false).events ∧
      CreateEvent.SetSeed 1700000000 ∈
        (Create (some ⟨false⟩) 0 1700000000 Generator.Error.Success false).events ∧
      ¬ CreateEvent.SetSeed 0 ∈
        (Create (some ⟨false⟩) 0 1700000000 Generator.Error.Success false).events := by
  decide

/-- C18, amended: for a valid parameter, every configured seed and every clock value,
`Create` passes one seed `n` to `SetSeed` and to `SetGeneratedRandomSeed`, both before
`Generate` is called, and passes no other value to either; when the configured seed is
nonzero, `n` is the configured seed and `time` is not called; and a nonzero surfaced
seed, used as the configured seed of another run, is the seed which that run passes to
`SetSeed`, whatever the clock is then. -/
theorem Create_surfaced_seed_is_generator_seed (p : UDungeonGenerateParameter)
    (randomSeed clock : Int) (lastError : Generator.Error) (withEditor : Bool) :
    (∃ (n : Int) (before after : List CreateEvent),
      (Create (some p) randomSeed clock lastError withEditor).events =
          before ++ CreateEvent.Generate :: after ∧
        CreateEvent.SetSeed n ∈ before ∧
        CreateEvent.SetGeneratedRandomSeed n ∈ before ∧
        CreateEvent.Generate ∉ before ∧
        (∀ m : Int,
          (CreateEvent.SetSeed m ∈
              (Create (some p) randomSeed clock lastError withEditor).events ∨
            CreateEvent.SetGeneratedRandomSeed m ∈
              (Create (some p) randomSeed clock lastError withEditor).events) →
          m = n) ∧
        (randomSeed ≠ 0 → n = randomSeed) ∧
        (n ≠ 0 → ∀ (clock2 : Int) (lastError2 : Generator.Error) (withEditor2 : Bool),
          CreateEvent.SetSeed n ∈
            (Create (some p) n clock2 lastError2 withEditor2).events)) ∧
    (randomSeed ≠ 0 →
      CreateEvent.time ∉ (Create (some p) randomSeed clock lastError withEditor).events) := by
  refine ⟨⟨if randomSeed = 0 then toInt32 clock else randomSeed,
    [CreateEvent.GetRandomSeed, CreateEvent.GetRandomSeed] ++
      (if randomSeed = 0 then [CreateEvent.time] else []) ++
      [CreateEvent.SetSeed (if randomSeed = 0 then toInt32 clock else randomSeed),
        CreateEvent.SetGeneratedRandomSeed
          (if randomSeed = 0 then toInt32 clock else randomSeed),
        CreateEvent.MakeGenerator, CreateEvent.OnQueryParts],
    [CreateEvent.DumpRoomDiagram, CreateEvent.GetLastError] ++
      (if Generator.Error.Success ≠ lastError then
        (if withEditor then [CreateEvent.DumpToJson] else [])
      else [CreateEvent.AddTerrain, CreateEvent.AddObject]),
    ?_, ?_, ?_, ?_, ?_, ?_, ?_⟩, ?_⟩
  · unfold Create
    by_cases h : Generator.Error.Success ≠ lastError <;> simp [h]
  · simp
  · simp
  · by_cases h0 : randomSeed = 0 <;> simp [h0]
  · intro m hm
    unfold Create at hm
    by_cases h : Generator.Error.Success ≠ lastError <;> cases withEditor <;>
      by_cases h0 : randomSeed = 0 <;> simp [h, h0] at hm <;> simp [h0, hm]
  · intro h0
    simp [h0]
  · intro hn clock2 lastError2 withEditor2
    unfold Create
    by_cases h : Generator.Error.Success ≠ lastError2 <;> simp [h, hn]
  · intro h0
    unfold Create
    by_cases h : Generator.Error.Success ≠ lastError <;> cases withEditor <;> simp [h, h0]

/-- C18, amended, at a concrete run: with the configured seed 42 the clock is not
consulted. -/
theorem Create_surfaced_seed_is_generator_seed_witness :
    CreateEvent.time ∉
      (Create (some ⟨false⟩) 42 1700000000 Generator.Error.Success false).events :=
  (Create_surfaced_seed_is_generator_seed ⟨false⟩ 42 1700000000 Generator.Error.Success
    false).2 (by decide)

/-- C20: for a valid parameter, `Create` returns, and it returns true exactly when the
generator's last error after `Generate` is `Success`; `AddTerrain` and `AddObject` are
called exactly in that case; and the room diagram is dumped in both cases. -/
theorem Create_result (p : UDungeonGenerateParameter) (randomSeed clock : Int)
    (lastError : Generator.Error) (withEditor : Bool) :
    ((Create (some p) randomSeed clock lastError withEditor).result = some true ↔
      lastError = Generator.Error.Success) ∧
    ((Create (some p) randomSeed clock lastError withEditor).result = some false ↔
      lastError ≠ Generator.Error.Success) ∧
    (CreateEvent.AddTerrain ∈ (Create (some p) randomSeed clock lastError withEditor).events ↔
      lastError = Generator.Error.Success) ∧
    (CreateEvent.AddObject ∈ (Create (some p) randomSeed clock lastError withEditor).events ↔
      lastError = Generator.Error.Success) ∧
    CreateEvent.DumpRoomDiagram ∈
      (Create (some p) randomSeed clock lastError withEditor).events := by
  unfold Create
  by_cases h : Generator.Error.Success = lastError
  · subst h
    by_cases h0 : randomSeed = 0 <;> simp [h0]
  · have h2 : lastError ≠ Generator.Error.Success := fun e => h e.symm
    by_cases h0 : randomSeed = 0 <;> cases withEditor <;> simp [h, h0, h2]

/-! ## The room-locator callback -/

/-- C19 as stated fails: for a 3 x 3 x 3 room, the two locators of `twoLocators` and an
empty level-request queue, `Room::SetDataSize` is called twice. -/
theorem CreateImpl_AddRoomAsset_twice_counterexample :
    ¬ countSetDataSize
        (CreateImpl_AddRoomAsset twoLocators ⟨3, 3, 3, Room.Parts.Hall, false, false⟩ []).calls
      ≤ 1 := by
  decide

/-- A level path is requested in a queue extended by one request exactly when it was
requested before or is the path of the new request. -/
theorem IsStreamLevelRequested_RequestStreamLevel (queue : List LoadStreamLevelParameter)
    (added levelPath : String) :
    IsStreamLevelRequested (RequestStreamLevel queue added) levelPath =
      (IsStreamLevelRequested queue levelPath || added == levelPath) := by
  simp [IsStreamLevelRequested, RequestStreamLevel, List.any_append]

/-- The lambda either leaves the state as it is, or, for a level path that is not yet
requested, makes one `SetDataSize` call and adds the path to the queue. -/
theorem CreateImpl_AddRoomAsset_locator_cases (st : AddRoomAssetState)
    (l : FDungeonRoomLocator) :
    CreateImpl_AddRoomAsset_locator st l = st ∨
      (IsStreamLevelRequested st.mRequestLoadStreamLevels l.LevelPath = false ∧
        (CreateImpl_AddRoomAsset_locator st l).mRequestLoadStreamLevels =
          RequestStreamLevel st.mRequestLoadStreamLevels l.LevelPath ∧
        countSetDataSize (CreateImpl_AddRoomAsset_locator st l).calls =
          countSetDataSize st.calls + 1) := by
  unfold CreateImpl_AddRoomAsset_locator
  split_ifs with h1 h2 h3 h4 h5
  · exact Or.inl rfl
  · exact Or.inl rfl
  · exact Or.inl rfl
  · exact Or.inl rfl
  · right
    refine ⟨by simpa using h5, rfl, ?_⟩
    simp [countSetDataSize, List.countP_append, List.countP_cons]
  · exact Or.inl rfl

/-- Running the lambda over a list of locators from any state: the queue grows by
pairwise distinct level paths of locators that were not requested before, and one
`SetDataSize` call is made for each of them. -/
theorem CreateImpl_AddRoomAsset_foldl (locators : List FDungeonRoomLocator) :
    ∀ st : AddRoomAssetState, ∃ added : List String,
      (locators.foldl CreateImpl_AddRoomAsset_locator st).mRequestLoadStreamLevels =
          st.mRequestLoadStreamLevels ++ added.map LoadStreamLevelParameter.mk ∧
        added.Nodup ∧
        (∀ path ∈ added,
          IsStreamLevelRequested st.mRequestLoadStreamLevels path = false ∧
            ∃ l ∈ locators, l.LevelPath = path) ∧
        countSetDataSize (locators.foldl CreateImpl_AddRoomAsset_locator st).calls =
          countSetDataSize st.calls + added.length := by
  induction locators with
  | nil =>
    intro st
    exact ⟨[], by simp, List.nodup_nil, by simp, by simp⟩
  | cons l ls ih =>
    intro st
    rw [List.foldl_cons]
    rcases CreateImpl_AddRoomAsset_locator_cases st l with h | ⟨hreq, hq, hc⟩
    · rw [h]
      obtain ⟨added, h1, h2, h3, h4⟩ := ih st
      refine ⟨added, h1, h2, ?_, h4⟩
      intro path hp
      obtain ⟨ha, l2, hl2, hl2p⟩ := h3 path hp
      exact ⟨ha, l2, List.mem_cons_of_mem _ hl2, hl2p⟩
    · obtain ⟨added, h1, h2, h3, h4⟩ := ih (CreateImpl_AddRoomAsset_locator st l)
      have hnew : ∀ path ∈ added,
          IsStreamLevelRequested st.mRequestLoadStreamLevels path = false ∧
            l.LevelPath ≠ path := by
        intro path hp
        have h := (h3 path hp).1
        rw [hq, IsStreamLevelRequested_RequestStreamLevel] at h
        simpa using h
      refine ⟨l.LevelPath :: added, ?_, ?_, ?_, ?_⟩
      · rw [h1, hq]
        simp [RequestStreamLevel]
      · refine List.nodup_cons.mpr ⟨?_, h2⟩
        intro hmem
        exact (hnew _ hmem).2 rfl
      · intro path hp
        rcases List.mem_cons.mp hp with hp | hp
        · subst hp
          exact ⟨hreq, l, List.mem_cons_self _ _, rfl⟩
        · obtain ⟨_, l2, hl2, hl2p⟩ := h3 path hp
          exact ⟨(hnew path hp).1, l2, List.mem_cons_of_mem _ hl2, hl2p⟩
      · rw [h4, hc]
        simp only [List.length_cons]
        omega

/-- A duplicate-free list whose members are all equal has at most one member. -/
theorem length_le_one_of_nodup_of_all_eq {α : Type} (xs : List α) (hnd : xs.Nodup)
    (heq : ∀ a ∈ xs, ∀ b ∈ xs, a = b) : xs.length ≤ 1 := by
  match xs, hnd, heq with
  | [], _, _ => simp
  | [_], _, _ => simp
  | a :: b :: rest, hnd, heq =>
    exfalso
    have hab : a = b := heq a (by simp) b (by simp)
    subst hab
    simp at hnd

/-- C19, amended: during the callback for one room, `Room::SetDataSize` is called once for
each level path that the callback adds to the level-request queue; the added paths are
pairwise distinct level paths of locators and none of them was requested before. So the
calls number at most one per level path and at most the number of locators, and at most
one in all when every locator names the same level path; this for every list of
locators, every room and every prior state of the queue. -/
theorem CreateImpl_AddRoomAsset_once_per_level (locators : List FDungeonRoomLocator)
    (room : Room) (queue : List LoadStreamLevelParameter) :
    (∃ added : List String,
      (CreateImpl_AddRoomAsset locators room queue).mRequestLoadStreamLevels =
          queue ++ added.map LoadStreamLevelParameter.mk ∧
        added.Nodup ∧
        (∀ path ∈ added,
          IsStreamLevelRequested queue path = false ∧ ∃ l ∈ locators, l.LevelPath = path) ∧
        countSetDataSize (CreateImpl_AddRoomAsset locators room queue).calls =
          added.length) ∧
    ((∀ l1 ∈ locators, ∀ l2 ∈ locators, l1.LevelPath = l2.LevelPath) →
      countSetDataSize (CreateImpl_AddRoomAsset locators room queue).calls ≤ 1) := by
  obtain ⟨added, h1, h2, h3, h4⟩ :=
    CreateImpl_AddRoomAsset_foldl locators ⟨room, queue, []⟩
  have h4b : countSetDataSize (CreateImpl_AddRoomAsset locators room queue).calls =
      added.length := by
    unfold CreateImpl_AddRoomAsset
    rw [h4]
    simp [countSetDataSize]
  refine ⟨⟨added, h1, h2, h3, h4b⟩, ?_⟩
  intro hsame
  rw [h4b]
  apply length_le_one_of_nodup_of_all_eq added h2
  intro a ha b hb
  obtain ⟨_, la, hla, hlap⟩ := h3 a ha
  obtain ⟨_, lb, hlb, hlbp⟩ := h3 b hb
  rw [← hlap, ← hlbp]
  exact hsame la hla lb hlb

/-- C19, amended, at a concrete call: with the single locator for level `A`, a 3 x 3 x 3
room and an empty queue, `SetDataSize` is called at most once. -/
theorem CreateImpl_AddRoomAsset_once_per_level_witness :
    countSetDataSize
        (CreateImpl_AddRoomAsset
          [⟨Room.Parts.Any, EDungeonRoomSizeCondition.Equal, EDungeonRoomSizeCondition.Equal,
            EDungeonRoomSizeCondition.Equal, 3, 3, 3, "A", true, true⟩]
          ⟨3, 3, 3, Room.Parts.Hall, false, false⟩ []).calls ≤ 1 :=
  (CreateImpl_AddRoomAsset_once_per_level
    [⟨Room.Parts.Any, EDungeonRoomSizeCondition.Equal, EDungeonRoomSizeCondition.Equal,
      EDungeonRoomSizeCondition.Equal, 3, 3, 3, "A", true, true⟩]
    ⟨3, 3, 3, Room.Parts.Hall, false, false⟩ []).2 (by simp)

/-! ## Relations between the predicates -/

/-- C24: a face never receives both a wall and a door: `CanBuildWall s t dir mergeRooms`
and `CanBuildGate s t dir` are not both true. -/
theorem not_wall_and_gate (s t : Grid) (dir : Direction) (mergeRooms : Bool) :
    ¬ (s.CanBuildWall t dir mergeRooms = true ∧ s.CanBuildGate t dir = true) := by
  obtain ⟨sty, sid, sdir, sp, sf, sr, sm, sc⟩ := s
  obtain ⟨tty, tid, tdir, tp, tf, tr, tm, tc⟩ := t
  rintro ⟨hw, hg⟩
  have hs : sty = GridType.Gate := by
    cases sty <;> simp [Grid.CanBuildGate] at hg ⊢
  subst hs
  cases tty <;> cases sdir <;> cases dir <;>
    simp [Grid.CanBuildGate, Grid.IsKindOfAisleType, Grid.IsKindOfSlopeType,
      Grid.GetDirection, Direction.IsNorthSouth, Direction.Inverse] at hg <;>
    simp [Grid.CanBuildWall, Grid.IsKindOfRoomTypeWithoutGate, Grid.IsKindOfGateType,
      Grid.IsKindOfRoomType, Grid.IsKindOfSlopeType, Grid.IsKindOfSpatialType,
      Grid.GetIdentifier, Grid.GetDirection, Direction.IsNorthSouth] at hw

/-- C25: an Empty or OutOfBounds cell `s` generates no geometry of its own:
`CanBuildFloor`, `CanBuildSlope`, `CanBuildRoof`, `CanBuildWall`, `CanBuildWallForMinimap`
and `CanBuildGate` are all false on `s`, whatever the neighbour, the direction,
`mergeRooms` and the check flag are. -/
theorem spatial_cell_builds_nothing (s t : Grid) (dir : Direction) (mergeRooms check : Bool)
    (hs : s.mType = GridType.Empty ∨ s.mType = GridType.OutOfBounds) :
    s.CanBuildFloor t check = false ∧
    s.CanBuildSlope = false ∧
    s.CanBuildRoof t check = false ∧
    s.CanBuildWall t dir mergeRooms = false ∧
    s.CanBuildWallForMinimap t dir mergeRooms = false ∧
    s.CanBuildGate t dir = false := by
  obtain ⟨sty, sid, sdir, sp, sf, sr, sm, sc⟩ := s
  simp only at hs
  rcases hs with hs | hs <;> subst hs <;>
    simp [Grid.CanBuildFloor, Grid.CanBuildSlope, Grid.CanBuildRoof, Grid.CanBuildWall,
      Grid.CanBuildWallForMinimap, Grid.CanBuildGate, Grid.IsKindOfRoomTypeWithoutGate,
      Grid.IsKindOfGateType, Grid.IsKindOfRoomType, Grid.IsKindOfAisleType,
      Grid.IsKindOfSlopeType]

/-- C25, at a concrete pair: an Empty cell beside a Floor cell of room 1, with the
suppression check on and rooms not merged. -/
theorem spatial_cell_builds_nothing_witness :
    (⟨GridType.Empty, 0, Direction.North, GridProps.None, false, false, false, false⟩ :
        Grid).CanBuildFloor
        ⟨GridType.Floor, 1, Direction.North, GridProps.None, false, false, false, false⟩
        true = false ∧
    (⟨GridType.Empty, 0, Direction.North, GridProps.None, false, false, false, false⟩ :
        Grid).CanBuildSlope = false ∧
    (⟨GridType.Empty, 0, Direction.North, GridProps.None, false, false, false, false⟩ :
        Grid).CanBuildRoof
        ⟨GridType.Floor, 1, Direction.North, GridProps.None, false, false, false, false⟩
        true = false ∧
    (⟨GridType.Empty, 0, Direction.North, GridProps.None, false, false, false, false⟩ :
        Grid).CanBuildWall
        ⟨GridType.Floor, 1, Direction.North, GridProps.None, false, false, false, false⟩
        Direction.East false = false ∧
    (⟨GridType.Empty, 0, Direction.North, GridProps.None, false, false, false, false⟩ :
        Grid).CanBuildWallForMinimap
        ⟨GridType.Floor, 1, Direction.North, GridProps.None, false, false, false, false⟩
        Direction.East false = false ∧
    (⟨GridType.Empty, 0, Direction.North, GridProps.None, false, false, false, false⟩ :
        Grid).CanBuildGate
        ⟨GridType.Floor, 1, Direction.North, GridProps.None, false, false, false, false⟩
        Direction.East = false :=
  spatial_cell_builds_nothing
    ⟨GridType.Empty, 0, Direction.North, GridProps.None, false, false, false, false⟩
    ⟨GridType.Floor, 1, Direction.North, GridProps.None, false, false, false, false⟩
    Direction.East false true (Or.inl rfl)

/-- C26: the two wall predicates read the direction argument only through its axis: each
gives the same result for North and South, and the same result for East and West. -/
theorem wall_depends_on_axis_only (s t : Grid) (mergeRooms : Bool) :
    s.CanBuildWall t Direction.North mergeRooms =
      s.CanBuildWall t Direction.South mergeRooms ∧
    s.CanBuildWall t Direction.East mergeRooms =
      s.CanBuildWall t Direction.West mergeRooms ∧
    s.CanBuildWallForMinimap t Direction.North mergeRooms =
      s.CanBuildWallForMinimap t Direction.South mergeRooms ∧
    s.CanBuildWallForMinimap t Direction.East mergeRooms =
      s.CanBuildWallForMinimap t Direction.West mergeRooms := by
  simp [Grid.CanBuildWall, Grid.CanBuildWallForMinimap, Direction.IsNorthSouth]

/-! ## Terrain generation -/

/-- C21: for the cell at `(x, y, z)` and each of the four directions `d`, `AddTerrain`
adds the wall of the face `d` exactly when `CanBuildWall` holds for the cell, the cell at
`(x, y, z)` plus the unit vector of `d`, and the direction `d`; and it spawns the door of
the face `d` exactly when `CanBuildGate` holds for the same cell, neighbour and
direction. -/
theorem AddTerrain_neighbour_of_direction (voxel : Voxel) (mergeRooms : Bool) (x y z : Int)
    (d : Direction) :
    (faceYaw d ∈ AddTerrain_walls voxel mergeRooms x y z ↔
      (voxel.GetAt x y z).CanBuildWall
        (voxel.GetAt (x + d.GetVector.1) (y + d.GetVector.2.1) (z + d.GetVector.2.2))
        d mergeRooms = true) ∧
    (faceYaw d ∈ AddTerrain_gates voxel x y z ↔
      (voxel.GetAt x y z).CanBuildGate
        (voxel.GetAt (x + d.GetVector.1) (y + d.GetVector.2.1) (z + d.GetVector.2.2))
        d = true) := by
  cases d <;>
    simp [AddTerrain_walls, AddTerrain_gates, faceYaw, Direction.GetVector,
      Int.sub_eq_add_neg]

/-- A read at the height of the voxel returns the OutOfBounds cell. -/
theorem GetAt_height_outOfBounds (voxel : Voxel) (cx cy : Int) (k : Nat)
    (hH : voxel.mHeight < 4294967296) (hk : k = voxel.mHeight) :
    (voxel.GetAt cx cy (u32 k)).GetType = GridType.OutOfBounds := by
  have h1 : u32 k = voxel.mHeight := by
    unfold u32
    omega
  have h2 : toU32 ((voxel.mHeight : Nat) : Int) = voxel.mHeight := by
    unfold toU32
    omega
  simp [Voxel.GetAt, Voxel.Get, h1, h2, Grid.GetType, Grid.outOfBounds]

/-- The ceiling-height loop started at `gridHeight` with `z + gridHeight <= H` ends within
`H - (z + gridHeight) + 1` iterations, at a height between `gridHeight` and `H - z`. -/
theorem AddTerrain_ceilingHeight_terminates (voxel : Voxel) (grid : Grid) (cx cy : Int)
    (z : Nat) (hH : voxel.mHeight < 4294967296) :
    ∀ (n gridHeight : Nat), z + gridHeight + n = voxel.mHeight →
      ∃ r, AddTerrain_ceilingHeight voxel grid cx cy z (n + 1) gridHeight = some r ∧
        gridHeight ≤ r ∧ z + r ≤ voxel.mHeight := by
  intro n
  induction n with
  | zero =>
    intro gridHeight h
    refine ⟨gridHeight, ?_, le_refl _, by omega⟩
    have hoob := GetAt_height_outOfBounds voxel cx cy (z + gridHeight) hH (by omega)
    simp [AddTerrain_ceilingHeight, hoob]
  | succ n ih =>
    intro gridHeight h
    obtain ⟨r, hr, hle, hb⟩ := ih (gridHeight + 1) (by omega)
    unfold AddTerrain_ceilingHeight
    simp only
    split
    · exact ⟨gridHeight, rfl, le_refl _, by omega⟩
    · split
      · exact ⟨gridHeight, rfl, le_refl _, by omega⟩
      · exact ⟨r, hr, by omega, hb⟩

/-- One corner of the pillar block keeps the pillar height between 1 and `H - z` and ends
when its ceiling-height loop is given `H - z` iterations. -/
theorem AddTerrain_pillarCorner_bounded (voxel : Voxel) (grid : Grid) (x y z : Nat)
    (dx dy : Int) (scan : PillarScan) (hH : voxel.mHeight < 4294967296)
    (hz : z < voxel.mHeight)
    (h1 : 1 ≤ scan.pillarGridHeight) (h2 : scan.pillarGridHeight ≤ voxel.mHeight - z) :
    ∃ s, AddTerrain_pillarCorner (voxel.mHeight - z) voxel grid x y z scan dx dy = some s ∧
      1 ≤ s.pillarGridHeight ∧ s.pillarGridHeight ≤ voxel.mHeight - z := by
  obtain ⟨r, hr, hle, hb⟩ :=
    AddTerrain_ceilingHeight_terminates voxel grid (x + dx) (y + dy) z hH
      (voxel.mHeight - z - 1) 1 (by omega)
  have hfuel : voxel.mHeight - z - 1 + 1 = voxel.mHeight - z := by omega
  rw [hfuel] at hr
  unfold AddTerrain_pillarCorner
  simp only [hr]
  split
  · refine ⟨_, rfl, ?_, ?_⟩
    · simp only
      split <;> omega
    · simp only
      split <;> omega
  · exact ⟨_, rfl, h1, h2⟩

/-- C30: in a voxel of height `H` (a `uint32_t`), for a cell at height `z < H`, the
ceiling-height loop of every examined column ends within `H - z` iterations at a height
between 1 and `H - z`; the pillar block ends, and the `pillarGridHeight` it computes and
passes to the pillar callback satisfies `1 <= pillarGridHeight <= H - z`. -/
theorem AddTerrain_pillar_height_bounded (voxel : Voxel) (x y z : Nat)
    (hH : voxel.mHeight < 4294967296) (hz : z < voxel.mHeight) :
    (∀ (grid : Grid) (cx cy : Int),
      ∃ r, AddTerrain_ceilingHeight voxel grid cx cy z (voxel.mHeight - z) 1 = some r ∧
        1 ≤ r ∧ r ≤ voxel.mHeight - z) ∧
    (∃ scan, AddTerrain_pillarScan (voxel.mHeight - z) voxel x y z = some scan ∧
      1 ≤ scan.pillarGridHeight ∧ scan.pillarGridHeight ≤ voxel.mHeight - z) ∧
    (∃ call, AddTerrain_pillar (voxel.mHeight - z) voxel x y z = some call ∧
      ∀ pillarGridHeight, call = some pillarGridHeight →
        1 ≤ pillarGridHeight ∧ pillarGridHeight ≤ voxel.mHeight - z) := by
  have hscan : ∃ scan, AddTerrain_pillarScan (voxel.mHeight - z) voxel x y z = some scan ∧
      1 ≤ scan.pillarGridHeight ∧ scan.pillarGridHeight ≤ voxel.mHeight - z := by
    obtain ⟨s1, e1, a1, b1⟩ :=
      AddTerrain_pillarCorner_bounded voxel (voxel.GetAt x y z) x y z (-1) (-1)
        ⟨0, false, 1⟩ hH hz (le_refl _) (by simp only; omega)
    obtain ⟨s2, e2, a2, b2⟩ :=
      AddTerrain_pillarCorner_bounded voxel (voxel.GetAt x y z) x y z 0 (-1) s1 hH hz a1 b1
    obtain ⟨s3, e3, a3, b3⟩ :=
      AddTerrain_pillarCorner_bounded voxel (voxel.GetAt x y z) x y z (-1) 0 s2 hH hz a2 b2
    obtain ⟨s4, e4, a4, b4⟩ :=
      AddTerrain_pillarCorner_bounded voxel (voxel.GetAt x y z) x y z 0 0 s3 hH hz a3 b3
    refine ⟨s4, ?_, a4, b4⟩
    simp [AddTerrain_pillarScan, e1, e2, e3, e4]
  refine ⟨?_, hscan, ?_⟩
  · intro grid cx cy
    obtain ⟨r, hr, hle, hb⟩ :=
      AddTerrain_ceilingHeight_terminates voxel grid cx cy z hH (voxel.mHeight - z - 1) 1
        (by omega)
    have hfuel : voxel.mHeight - z - 1 + 1 = voxel.mHeight - z := by omega
    rw [hfuel] at hr
    exact ⟨r, hr, hle, by omega⟩
  · obtain ⟨scan, hs, a, b⟩ := hscan
    refine ⟨if scan.onFloor && decide (0 < scan.wallCount) && decide (scan.wallCount < 4)
      then some scan.pillarGridHeight else none, ?_, ?_⟩
    · unfold AddTerrain_pillar
      rw [hs]
      rfl
    intro h hh
    split at hh
    · cases hh
      exact ⟨a, b⟩
    · cases hh

/-- C30, at a concrete cell: in the column `floorColumn` of height 3, the pillar block of
the cell at height 0 ends within 3 iterations per column. -/
theorem AddTerrain_pillar_height_bounded_witness :
    ∃ scan, AddTerrain_pillarScan (3 - 0) floorColumn 0 0 0 = some scan ∧
      1 ≤ scan.pillarGridHeight ∧ scan.pillarGridHeight ≤ 3 - 0 :=
  (AddTerrain_pillar_height_bounded floorColumn 0 0 0 (by decide) (by decide)).2.1

/-! ## Defects at the edges -/

/-- C27: for the voxel `singleFloorCell` (width 1, depth 1), with
`worldToTextureScale = 2` and `textureWidthHeight = 2` (so that
`worldToTextureScale * max(1, W, D) <= textureWidthHeight`, the values that
`GenerateMiniMapTextureWithScale` passes for a dot scale of 2), the buffer has 4 bytes
and the South and East wall lines of the cell write the indices 4 and 5, outside it. -/
theorem GenerateMiniMapTexture_writes_outside_buffer :
    2 * max 1 (max singleFloorCell.GetWidth singleFloorCell.GetDepth) ≤ 2 ∧
    lineWrites 2 2 0 0 Direction.South = [4, 5] ∧
    lineWrites 2 2 0 0 Direction.East = [2, 4] ∧
    GenerateMiniMapTexture_writes (some ⟨false⟩) singleFloorCell (fun _ => 153)
        (fun _ => 255) 2 2 0 =
      some [0, 1, 2, 3, 0, 1, 4, 5, 2, 4, 0, 2] ∧
    ¬ (∀ index ∈ [0, 1, 2, 3, 0, 1, 4, 5, 2, 4, 0, 2], index < 2 * 2) := by
  refine ⟨by decide, by decide, by decide, by decide, by decide⟩

/-- C28: for an invalid parameter `Create` calls `Clear()` and then goes on to call
`parameter->GetRandomSeed()`; it does not return false. -/
theorem Create_invalid_parameter (randomSeed clock : Int) (lastError : Generator.Error)
    (withEditor : Bool) :
    (Create none randomSeed clock lastError withEditor).events =
        [CreateEvent.Clear, CreateEvent.GetRandomSeed] ∧
      (Create none randomSeed clock lastError withEditor).result ≠ some false := by
  simp [Create]

/-- For a parameter that is not null but invalid, `Create` calls `Clear()` and then reads
the seed, constructs a generator, runs `Generate` and returns: it does not stop after
`Clear()` either. -/
theorem Create_invalidObject_runs_on (p : UDungeonGenerateParameter) (randomSeed clock : Int)
    (lastError : Generator.Error) (withEditor : Bool) :
    (Create_invalidObject p randomSeed clock lastError withEditor).events.head? =
        some CreateEvent.Clear ∧
      CreateEvent.GetRandomSeed ∈
        (Create_invalidObject p randomSeed clock lastError withEditor).events ∧
      CreateEvent.MakeGenerator ∈
        (Create_invalidObject p randomSeed clock lastError withEditor).events ∧
      CreateEvent.Generate ∈
        (Create_invalidObject p randomSeed clock lastError withEditor).events ∧
      ((Create_invalidObject p randomSeed clock lastError withEditor).result = some true ↔
        lastError = Generator.Error.Success) := by
  unfold Create_invalidObject Create
  by_cases h : Generator.Error.Success = lastError
  · subst h
    by_cases h0 : randomSeed = 0 <;> simp [h0]
  · have h2 : lastError ≠ Generator.Error.Success := fun e => h e.symm
    by_cases h0 : randomSeed = 0 <;> cases withEditor <;> simp [h, h0, h2]

/-- C29: the callback for an added room-roof mesh broadcasts `OnCreateAisleRoof` and not
`OnCreateRoomRoof`, which no callback broadcasts; each of the five other callbacks
broadcasts the event of its own kind, once, and no other event. -/
theorem PreInitializeComponents_room_roof_event :
    PreInitializeComponents_callback MeshCallback.OnAddRoomRoof =
        [ActorAction.AddInstance MeshArray.RoomRoofMeshs,
          ActorAction.Broadcast ActorEvent.OnCreateAisleRoof] ∧
    MeshCallback.OnAddRoomRoof.ownEvent = ActorEvent.OnCreateRoomRoof ∧
    (∀ c : MeshCallback,
      ¬ ActorAction.Broadcast ActorEvent.OnCreateRoomRoof ∈
        PreInitializeComponents_callback c) ∧
    [MeshCallback.OnAddFloor, MeshCallback.OnAddSlope, MeshCallback.OnAddWall,
        MeshCallback.OnAddAisleRoof, MeshCallback.OnAddPillar].map
      (fun c => (PreInitializeComponents_callback c).filter
        (fun a => a matches ActorAction.Broadcast _)) =
    [MeshCallback.OnAddFloor, MeshCallback.OnAddSlope, MeshCallback.OnAddWall,
        MeshCallback.OnAddAisleRoof, MeshCallback.OnAddPillar].map
      (fun c => [ActorAction.Broadcast c.ownEvent]) := by
  refine ⟨rfl, rfl, ?_, rfl⟩
  intro c
  cases c <;> decide

/-! ## The BMP headers -/

/-- C22: under the 1-byte packing of Debug.h, `BMPFILEHEADER` occupies 14 bytes and
`BMPINFOHEADER` 40 bytes, the sums of the widths of their members, and `RGBCOLOR`
occupies 3 bytes, with blue at offset 0, green at offset 1 and red at offset 2. -/
theorem bmp_structure_sizes :
    bmp.structSize bmp.pack bmp.BMPFILEHEADER = 14 ∧
    (bmp.BMPFILEHEADER.map bmp.Member.width).sum = 14 ∧
    bmp.structSize bmp.pack bmp.BMPINFOHEADER = 40 ∧
    (bmp.BMPINFOHEADER.map bmp.Member.width).sum = 40 ∧
    bmp.structSize bmp.pack bmp.RGBCOLOR = 3 ∧
    bmp.layoutFrom bmp.pack 0 bmp.RGBCOLOR =
      [("rgbBlue", 0), ("rgbGreen", 1), ("rgbRed", 2)] := by
  refine ⟨by decide, by decide, by decide, by decide, by decide, by decide⟩

/-! ## Aisles of a room -/

/-- The room test of `FindAisle` does not depend on the order of the two endpoints. -/
theorem isEndpointRoom_swap (room : Option Nat) (aisle : Aisle) :
    isEndpointRoom room aisle.swap = isEndpointRoom room aisle := by
  simp only [isEndpointRoom, Aisle.swap]
  by_cases h0 : aisle.mPoint0.mOwnerRoom = room <;>
    by_cases h1 : aisle.mPoint1.mOwnerRoom = room <;> simp [h0, h1]

/-- The test `room == room0 || room == room1` of `FindAisle` is the room test of the
specification. -/
theorem FindAisle_test_eq (room : Option Nat) (aisle : Aisle) :
    (room == (aisle.GetPoint 0).GetOwnerRoom || room == (aisle.GetPoint 1).GetOwnerRoom) =
      isEndpointRoom room aisle := by
  have e0 : aisle.GetPoint 0 = aisle.mPoint0 := rfl
  have e1 : aisle.GetPoint 1 = aisle.mPoint1 := rfl
  rw [e0, e1, Bool.eq_iff_iff]
  simp only [isEndpointRoom, Point.GetOwnerRoom, Bool.or_eq_true, beq_iff_eq,
    decide_eq_true_eq]
  constructor
  · rintro (h | h)
    · exact Or.inl h.symm
    · exact Or.inr h.symm
  · rintro (h | h)
    · exact Or.inl h.symm
    · exact Or.inr h.symm

/-- `FindAisle` offers the aisles that pass the room test, in stored order, up to and
including the first one on which the callback returns true. -/
theorem FindAisle_eq_offerUntilTrue {σ : Type} (room : Option Nat)
    (func : σ → Aisle → Bool × σ) (mAisles : List Aisle) :
    ∀ s : σ, Generator.FindAisle mAisles room func s =
      offerUntilTrue func (mAisles.filter (isEndpointRoom room)) s := by
  induction mAisles with
  | nil =>
    intro s
    rfl
  | cons aisle rest ih =>
    intro s
    unfold Generator.FindAisle
    simp only [FindAisle_test_eq]
    by_cases h : isEndpointRoom room aisle = true
    · simp only [h, if_true, List.filter_cons_of_pos]
      unfold offerUntilTrue
      by_cases hf : (func s aisle).1 = true
      · simp only [hf, if_true]
      · simp only [hf, if_false, ih]
    · have h2 : isEndpointRoom room aisle = false := by simpa using h
      simp only [h2, Bool.false_eq_true, if_false]
      rw [List.filter_cons_of_neg (by simp [h2])]
      exact ih s

/-- Exchanging the endpoints of some of the stored aisles changes nothing in `FindAisle`
but the order of the endpoints of the aisles it offers. -/
theorem FindAisle_swap_some {σ : Type} (room : Option Nat) (func : σ → Aisle → Bool × σ)
    (swapped : Aisle → Bool) (mAisles : List Aisle) :
    ∀ s : σ,
      Generator.FindAisle (mAisles.map fun a => if swapped a then a.swap else a) room func s =
        ((Generator.FindAisle mAisles room
            (fun t a => func t (if swapped a then a.swap else a)) s).1.map
            (fun a => if swapped a then a.swap else a),
          (Generator.FindAisle mAisles room
            (fun t a => func t (if swapped a then a.swap else a)) s).2) := by
  induction mAisles with
  | nil =>
    intro s
    rfl
  | cons aisle rest ih =>
    intro s
    have htest : isEndpointRoom room (if swapped aisle then aisle.swap else aisle) =
        isEndpointRoom room aisle := by
      by_cases hsw : swapped aisle = true
      · simp only [hsw, if_true, isEndpointRoom_swap]
      · simp only [hsw, if_false, Bool.false_eq_true]
    rw [List.map_cons]
    unfold Generator.FindAisle
    simp only [FindAisle_test_eq, htest]
    by_cases h : isEndpointRoom room aisle = true
    · simp only [h, if_true]
      by_cases hf : (func s (if swapped aisle then aisle.swap else aisle)).1 = true
      · simp only [hf, if_true, List.map_cons, List.map_nil]
      · simp only [hf, if_false, ih, List.map_cons]
        rfl
    · have h2 : isEndpointRoom room aisle = false := by simpa using h
      simp only [h2, Bool.false_eq_true, if_false]
      exact ih s

/-- C23: `FindAisle(room, f)` offers to `f` exactly the stored aisles that have `room` as
the owner room of endpoint 0 or of endpoint 1, in stored order, up to and including the
first one on which `f` returns true and none after it; the room test gives the same
answer when the two endpoints of an aisle are exchanged, and exchanging the endpoints
of any of the stored aisles leaves the offered aisles the same, up to that exchange. -/
theorem FindAisle_unordered_pair {σ : Type} (room : Option Nat)
    (func : σ → Aisle → Bool × σ) (swapped : Aisle → Bool) (mAisles : List Aisle) (s : σ) :
    Generator.FindAisle mAisles room func s =
      offerUntilTrue func (mAisles.filter (isEndpointRoom room)) s ∧
    (Generator.FindAisle mAisles room func s).1 <+:
      mAisles.filter (isEndpointRoom room) ∧
    (mAisles.map Aisle.swap).filter (isEndpointRoom room) =
      (mAisles.filter (isEndpointRoom room)).map Aisle.swap ∧
    (Generator.FindAisle (mAisles.map fun a => if swapped a then a.swap else a) room func
        s).1 =
      (Generator.FindAisle mAisles room
          (fun t a => func t (if swapped a then a.swap else a)) s).1.map
        (fun a => if swapped a then a.swap else a) := by
  refine ⟨FindAisle_eq_offerUntilTrue room func mAisles s, ?_, ?_, ?_⟩
  · rw [FindAisle_eq_offerUntilTrue]
    generalize mAisles.filter (isEndpointRoom room) = l
    induction l generalizing s with
    | nil => exact List.prefix_refl _
    | cons a rest ih =>
      unfold offerUntilTrue
      by_cases hf : (func s a).1 = true
      · simp only [hf, if_true]
        exact ⟨rest, rfl⟩
      · simp only [hf, if_false, Bool.false_eq_true]
        exact (List.prefix_cons_inj a).mpr (ih _)
  · induction mAisles with
    | nil => rfl
    | cons a rest ih =>
      by_cases h : isEndpointRoom room a = true
      · have h2 : isEndpointRoom room a.swap = true := by rw [isEndpointRoom_swap]; exact h
        simp [List.filter_cons, h, h2, ih]
      · have h2 : ¬ isEndpointRoom room a.swap = true := by rw [isEndpointRoom_swap]; exact h
        simp [List.filter_cons, h, h2, ih]
  · rw [FindAisle_swap_some]

end dungeon
